import Mathlib

/-!
# vegacapsule: job runner and node-set templating

A shallow embedding of `nomad/job_runner.go` and `cmd/template_node_sets.go`.

* Job descriptors (`api.Job` and its parts) are records; pointer-typed fields are `Option`s.
* The scheduler client is an interface of two functions whose answer may depend on every
  call made so far; each call and its answer is appended to a log.
* `StartNetwork` returns its two values as a pair of `Option`s (`none` is `nil`); the helpers,
  which return either a value or an error, return an `Except`.
* A goroutine that makes one scheduler call takes one step (the call followed by the write made
  under the lock); the order of the steps of a group is a parameter of the model, and `Wait`
  returns the first error in that order. In the second group of `StartNetwork` the calls of the
  goroutines of `RunNodeSets` interleave with the faucet and wallet calls, and the return of
  `RunNodeSets` is a step of its own that comes after the last of its calls.
* The templating command acts on the outside through collaborators that are parameters of the
  model; what it does is recorded, in order, in a trace.
-/

namespace Vegacapsule

/-! ## Data model (`types`, `config`, `api`) -/

/-- The `types.VegaNode` record, with the `Name` the runner reads from it. -/
structure VegaNode where
  Name : String
  HomeDir : String
  NodeWalletPassFilePath : String
  deriving DecidableEq

/-- The `types.TendermintNode` record, with the `Name` the runner reads from it. -/
structure TendermintNode where
  Name : String
  HomeDir : String
  GenesisFilePath : String
  deriving DecidableEq

/-- The `types.DataNode` record, with the `Name` the runner reads from it. -/
structure DataNode where
  Name : String
  HomeDir : String
  BinaryPath : String
  deriving DecidableEq

/-- The `types.NodeSet` record. `Name` and `Index` are read by the runner and by the templating
command (`ns.Name`, `ns.Index`) and `GroupName` is what the group filter matches; the `types.go`
at hand leaves the three out. `DataNode` is a pointer in the source. -/
structure NodeSet where
  GroupName : String
  Name : String
  Mode : String
  Index : Int
  Vega : VegaNode
  Tendermint : TendermintNode
  DataNode : Option DataNode
  deriving DecidableEq

/-- The `types.Wallet` record, with the `Name` the runner reads from it. -/
structure Wallet where
  Name : String
  HomeDir : String
  Network : String
  ServiceConfigFilePath : String
  PublicKeyFilePath : String
  PrivateKeyFilePath : String
  deriving DecidableEq

/-- The `types.Faucet` record, with the `Name` the runner reads from it. -/
structure Faucet where
  Name : String
  HomeDir : String
  PublicKey : String
  ConfigFilePath : String
  WalletFilePath : String
  WalletPassFilePath : String
  deriving DecidableEq

/-- Modelled from the spec: the type of `GeneratedServices.NodeSets` and its `ToSlice` are not
among the sources (`job_runner.go` line 316 and `template_node_sets.go` line 223 call
`NodeSets.ToSlice()`; the `types.go` at hand declares the field as `[]NodeSet`, which has no
such method). The spec gives the generated node sets as an ordered sequence of `NodeSet` in
which `Name` is unique; the sequence is kept as a list, and the uniqueness of the names is the
property `NodeSetMap.uniqueNames`, assumed where a theorem needs it. -/
structure NodeSetMap where
  sets : List NodeSet
  deriving DecidableEq

/-- Modelled from the spec: `ToSlice`, the node sets as a slice, in the order of the sequence. -/
def NodeSetMap.ToSlice (m : NodeSetMap) : List NodeSet := m.sets

/-- Modelled from the spec: the invariant of the data model, `Name` is unique within the
state. -/
def NodeSetMap.uniqueNames (m : NodeSetMap) : Prop := (m.ToSlice.map NodeSet.Name).Nodup

instance (m : NodeSetMap) : Decidable m.uniqueNames := by
  unfold NodeSetMap.uniqueNames
  infer_instance

/-- The `types.GeneratedServices` record. -/
structure GeneratedServices where
  Wallet : Option Wallet
  Faucet : Option Faucet
  NodeSets : NodeSetMap
  deriving DecidableEq

/-- Modelled from the spec: `types.JobIDMap`, the type of `NodesSetsJobIDs` and `ExtraJobIDs`,
and its `ToSlice` are not among the sources. `job_runner.go` creates both fields with
`map[string]bool{}` (lines 257-258), fills them with `m[id] = true` (lines 273, 323) and reads
them with `ToSlice()` (lines 344, 346); the spec calls each a set of job IDs. The `types.go` at
hand declares the two fields as `[]string`, which those lines do not fit; the runner is
followed. The keys are kept as a list, one entry per key; the order of the list stands for the
unspecified iteration order of the map. -/
structure JobIDMap where
  keys : List String
  deriving DecidableEq

/-- The empty map `map[string]bool{}`. -/
def JobIDMap.empty : JobIDMap := ⟨[]⟩

/-- The assignment `m[id] = true`: the key is added unless it is already there. -/
def JobIDMap.set (m : JobIDMap) (id : String) : JobIDMap :=
  if id ∈ m.keys then m else ⟨m.keys ++ [id]⟩

/-- Modelled from the spec: `ToSlice`, the keys of the map as a slice. -/
def JobIDMap.ToSlice (m : JobIDMap) : List String := m.keys

/-- Number of entries of the map, `len(m)`. -/
def JobIDMap.len (m : JobIDMap) : Nat := m.keys.length

/-- The `types.NetworkJobs` record. -/
structure NetworkJobs where
  NodesSetsJobIDs : JobIDMap
  ExtraJobIDs : JobIDMap
  FaucetJobID : String
  WalletJobID : String
  deriving DecidableEq

/-- The `config.StaticPort` record. -/
structure StaticPort where
  To : Int
  Value : Int
  deriving DecidableEq

/-- The `config.DockerConfig` record: a pre-start container. -/
structure DockerConfig where
  Name : String
  Image : String
  Command : String
  Args : List String
  Env : List (String × String)
  StaticPort : Option StaticPort
  deriving DecidableEq

/-- The `config.FaucetConfig` record, the part the runner reads. -/
structure FaucetConfig where
  Name : String
  deriving DecidableEq

/-- The `config.WalletConfig` record, the part the runner reads. -/
structure WalletConfig where
  Binary : String
  deriving DecidableEq

/-- The `config.Config` record, the part `StartNetwork` reads: `conf.VegaBinary`,
`conf.Network.PreStart.Docker`, `conf.Network.Faucet`, `conf.Network.Wallet`. The package is not
among the sources; the three pointers the runner dereferences without a check are taken as set. -/
structure Config where
  VegaBinary : String
  PreStartDocker : List DockerConfig
  Faucet : FaucetConfig
  Wallet : WalletConfig
  deriving DecidableEq

/-- A value stored in a task's `Config` map (`map[string]interface{}`). -/
inductive ConfigValue where
  | str (s : String)
  | strs (l : List String)
  deriving DecidableEq

/-- The `api.Port` record. -/
structure Port where
  Label : String
  To : Int
  Value : Int
  deriving DecidableEq

/-- The `api.NetworkResource` record. -/
structure NetworkResource where
  ReservedPorts : List Port
  deriving DecidableEq

/-- The `api.RestartPolicy` record. -/
structure RestartPolicy where
  Attempts : Option Int
  Mode : Option String
  deriving DecidableEq

/-- The `api.Resources` record. -/
structure Resources where
  CPU : Option Int
  MemoryMB : Option Int
  deriving DecidableEq

/-- The `api.Task` record. -/
structure Task where
  Name : String
  Driver : String
  Config : List (String × ConfigValue)
  Env : List (String × String)
  Resources : Option Resources
  deriving DecidableEq

/-- The `api.TaskGroup` record. -/
structure TaskGroup where
  Networks : List NetworkResource
  RestartPolicy : Option RestartPolicy
  Name : Option String
  Tasks : List Task
  deriving DecidableEq

/-- The `api.Job` record. -/
structure Job where
  ID : Option String
  Datacenters : List String
  TaskGroups : List TaskGroup
  deriving DecidableEq

/-- The dereference `*job.ID`; every descriptor built below has its `ID` set. -/
def Job.id (j : Job) : String := j.ID.getD ""

/-- Look a key up in a task's `Config` map. -/
def Task.config (t : Task) (key : String) : Option ConfigValue :=
  (t.Config.find? (fun kv => kv.1 == key)).map Prod.snd

/-! ## Job descriptors (`job_runner.go`, lines 26-252) -/

/-- The descriptor `runDockerJob` builds (lines 27-72). -/
def dockerJob (conf : DockerConfig) : Job :=
  let ports : List Port :=
    match conf.StaticPort with
    | some sp => [{ Label := conf.Name ++ "-port", To := sp.To, Value := sp.Value }]
    | none => []
  let portLabels : List String :=
    match conf.StaticPort with
    | some _ => [conf.Name ++ "-port"]
    | none => []
  { ID := some conf.Name
    Datacenters := ["dc1"]
    TaskGroups := [
      { Networks := [{ ReservedPorts := ports }]
        RestartPolicy := some { Attempts := some 0, Mode := some "fail" }
        Name := some conf.Name
        Tasks := [
          { Name := conf.Name
            Driver := "docker"
            Config := [("image", .str conf.Image), ("command", .str conf.Command),
                       ("args", .strs conf.Args), ("ports", .strs portLabels)]
            Env := conf.Env
            Resources := some { CPU := some 500, MemoryMB := some 768 } }] }] }

/-- The task list `RunNodeSets` builds for one node set (lines 85-136). -/
def nodeSetTasks (vegaBinary : String) (ns : NodeSet) : List Task :=
  let tasks : List Task := [
    { Name := ns.Tendermint.Name
      Driver := "raw_exec"
      Config := [("command", .str vegaBinary),
                 ("args", .strs ["tm", "node", "--home", ns.Tendermint.HomeDir])]
      Env := []
      Resources := some { CPU := some 500, MemoryMB := some 512 } },
    { Name := ns.Vega.Name
      Driver := "raw_exec"
      Config := [("command", .str vegaBinary),
                 ("args", .strs ["node", "--home", ns.Vega.HomeDir,
                                 "--nodewallet-passphrase-file", ns.Vega.NodeWalletPassFilePath])]
      Env := []
      Resources := some { CPU := some 500, MemoryMB := some 512 } }]
  match ns.DataNode with
  | some dn =>
    tasks ++ [
      { Name := dn.Name
        Driver := "raw_exec"
        Config := [("command", .str dn.BinaryPath),
                   ("args", .strs ["node", "--home", dn.HomeDir])]
        Env := []
        Resources := some { CPU := some 500, MemoryMB := some 512 } }]
  | none => tasks

/-- The descriptor `RunNodeSets` appends to `jobs` for one node set (lines 138-151). -/
def nodeSetJob (vegaBinary : String) (ns : NodeSet) : Job :=
  { ID := some ns.Name
    Datacenters := ["dc1"]
    TaskGroups := [
      { Networks := []
        RestartPolicy := some { Attempts := some 0, Mode := some "fail" }
        Name := some "vega"
        Tasks := nodeSetTasks vegaBinary ns }] }

/-- The slice `jobs` at the end of the first loop of `RunNodeSets` (lines 82-152). -/
def nodeSetJobs (vegaBinary : String) (nodeSets : List NodeSet) : List Job :=
  nodeSets.map (nodeSetJob vegaBinary)

/-- The descriptor `runWallet` builds (lines 170-204). -/
def walletJob (conf : WalletConfig) (wallet : Wallet) : Job :=
  { ID := some wallet.Name
    Datacenters := ["dc1"]
    TaskGroups := [
      { Networks := []
        RestartPolicy := some { Attempts := some 0, Mode := some "fail" }
        Name := some "vega"
        Tasks := [
          { Name := "wallet-1"
            Driver := "raw_exec"
            Config := [("command", .str conf.Binary),
                       ("args", .strs ["service", "run", "--network", wallet.Network,
                                       "--automatic-consent", "--no-version-check",
                                       "--output", "json", "--home", wallet.HomeDir])]
            Env := []
            Resources := some { CPU := some 500, MemoryMB := some 512 } }] }] }

/-- The descriptor `runFaucet` builds (lines 214-245). -/
def faucetJob (binary : String) (conf : FaucetConfig) (fc : Faucet) : Job :=
  { ID := some fc.Name
    Datacenters := ["dc1"]
    TaskGroups := [
      { Networks := []
        RestartPolicy := some { Attempts := some 0, Mode := some "fail" }
        Name := some conf.Name
        Tasks := [
          { Name := conf.Name
            Driver := "raw_exec"
            Config := [("command", .str binary),
                       ("args", .strs ["faucet", "run", "--passphrase-file", fc.WalletPassFilePath,
                                       "--home", fc.HomeDir])]
            Env := []
            Resources := some { CPU := some 500, MemoryMB := some 512 } }] }] }

/-! ## The scheduler client and the error group -/

/-- One call received by the scheduler, with the error it answered (`none` is `nil`). -/
inductive Event where
  | run (job : Job) (err : Option String)
  | stop (jobID : String) (purge : Bool) (err : Option String)
  deriving DecidableEq

/-- The scheduler client (`nomad.Client`, not among the sources): `RunAndWait(ctx, job)` and
`Stop(ctx, jobID, purge)`. The answer may depend on every call made before, which covers a
context cancelled by an earlier failure. -/
structure Client where
  RunAndWait : List Event → Job → Option String
  Stop : List Event → String → Bool → Option String

/-- The call `r.client.RunAndWait(ctx, job)`, recorded in the log. -/
def Client.submit (c : Client) (job : Job) (log : List Event) : List Event × Option String :=
  (log ++ [Event.run job (c.RunAndWait log job)], c.RunAndWait log job)

/-- The order in which the goroutines of a group take their step: the head of the pick list
chooses, modulo the number of goroutines still waiting, which one goes next; once the pick list
is used up the rest go in the order they were spawned. -/
def schedule {α : Type} : List Nat → List α → List α
  | [], ts => ts
  | k :: ks, ts =>
    match ts[k % ts.length]? with
    | none => []
    | some t => t :: schedule ks (ts.eraseIdx (k % ts.length))

/-- Run the steps one after the other; the error kept is the first one returned. -/
def runAll {σ : Type} : List (σ → σ × Option String) → σ → σ × Option String
  | [], s => (s, none)
  | t :: ts, s =>
    match (t s).2 with
    | some err => ((runAll ts (t s).1).1, some err)
    | none => runAll ts (t s).1

/-- The pattern `g.Go(f1); ...; g.Go(fn); g.Wait()`: every function runs, in the order
`schedule picks` gives, and `Wait` returns the first error. -/
def errgroupWait {σ : Type} (picks : List Nat) (tasks : List (σ → σ × Option String)) (s : σ) :
    σ × Option String :=
  runAll (schedule picks tasks) s

/-! ## Running jobs (`job_runner.go`) -/

/-- The function `runDockerJob` (lines 26-79). -/
def runDockerJob (c : Client) (conf : DockerConfig) (log : List Event) :
    List Event × Except String Job :=
  let j := dockerJob conf
  match c.submit j log with
  | (log1, some err) => (log1, .error ("failed to run nomad docker job: " ++ err))
  | (log1, none) => (log1, .ok j)

/-- What `RunNodeSets` returns once `eg.Wait()` has returned `err` (lines 162-166). -/
def nodeSetsReturn (jobs : List Job) (err : Option String) : Except String (List Job) :=
  match err with
  | some err => .error ("failed to wait for node sets: " ++ err)
  | none => .ok jobs

/-- The function `RunNodeSets` (lines 81-167), called on its own: the descriptors are built,
one goroutine per descriptor calls `RunAndWait`, and `Wait` gives the first error. -/
def RunNodeSets (c : Client) (picks : List Nat) (vegaBinary : String) (nodeSets : List NodeSet)
    (log : List Event) : List Event × Except String (List Job) :=
  let jobs := nodeSetJobs vegaBinary nodeSets
  match errgroupWait picks (jobs.map c.submit) log with
  | (log1, err) => (log1, nodeSetsReturn jobs err)

/-- The function `runWallet` (lines 169-211). -/
def runWallet (c : Client) (conf : WalletConfig) (wallet : Wallet) (log : List Event) :
    List Event × Except String Job :=
  let j := walletJob conf wallet
  match c.submit j log with
  | (log1, some err) => (log1, .error ("failed to run the wallet job: " ++ err))
  | (log1, none) => (log1, .ok j)

/-- The function `runFaucet` (lines 213-252). -/
def runFaucet (c : Client) (binary : String) (conf : FaucetConfig) (fc : Faucet)
    (log : List Event) : List Event × Except String Job :=
  let j := faucetJob binary conf fc
  match c.submit j log with
  | (log1, some err) => (log1, .error ("failed to wait for faucet job: " ++ err))
  | (log1, none) => (log1, .ok j)

/-- What the goroutines of `StartNetwork` share: the scheduler log, the record `result`, and
the error kept by the group `eg` of the running `RunNodeSets` call (the first error one of its
goroutines returned). -/
structure RunState where
  log : List Event
  result : NetworkJobs
  nodeSetsErr : Option String
  deriving DecidableEq

/-- The goroutine started for one pre-start container (lines 265-277). -/
def preStartStep (c : Client) (dc : DockerConfig) (s : RunState) : RunState × Option String :=
  match runDockerJob c dc s.log with
  | (log1, .error err) =>
    ({ s with log := log1 }, some ("failed to run pre start job " ++ dc.Name ++ ": " ++ err))
  | (log1, .ok job) =>
    ({ s with log := log1
              result := { s.result with ExtraJobIDs := s.result.ExtraJobIDs.set job.id } },
      none)

/-- The goroutine started for the faucet (lines 286-297). -/
def faucetStep (c : Client) (conf : Config) (fc : Faucet) (s : RunState) :
    RunState × Option String :=
  match runFaucet c conf.VegaBinary conf.Faucet fc s.log with
  | (log1, .error err) => ({ s with log := log1 }, some ("failed to run faucet: " ++ err))
  | (log1, .ok job) =>
    ({ s with log := log1, result := { s.result with FaucetJobID := job.id } }, none)

/-- The goroutine started for the wallet (lines 301-312). -/
def walletStep (c : Client) (conf : Config) (wallet : Wallet) (s : RunState) :
    RunState × Option String :=
  match runWallet c conf.Wallet wallet s.log with
  | (log1, .error err) => ({ s with log := log1 }, some ("failed to run wallet: " ++ err))
  | (log1, .ok job) =>
    ({ s with log := log1, result := { s.result with WalletJobID := job.id } }, none)

/-- The goroutine `eg.Go` starts inside `RunNodeSets` for one descriptor (lines 157-159), when
`RunNodeSets` runs inside the second group of `StartNetwork`: its error goes to the group `eg`,
which keeps the first one, and not to the group of `StartNetwork`. -/
def nodeSetCallStep (c : Client) (job : Job) (s : RunState) : RunState × Option String :=
  match c.submit job s.log with
  | (log1, err) =>
    ({ s with log := log1
              nodeSetsErr := match s.nodeSetsErr with
                | some first => some first
                | none => err },
      none)

/-- The rest of the goroutine started for the node sets (lines 316-327), from the return of
`eg.Wait()` inside `RunNodeSets` on: `RunNodeSets` returns, and its jobs are recorded. -/
def nodeSetsReturnStep (jobs : List Job) (s : RunState) : RunState × Option String :=
  match nodeSetsReturn jobs s.nodeSetsErr with
  | .error err => (s, some ("failed to run node sets: " ++ err))
  | .ok jobs =>
    ({ s with result := { s.result with
         NodesSetsJobIDs := jobs.foldl (fun m job => m.set job.id) s.result.NodesSetsJobIDs } },
      none)

/-- A scheduler call of the second group of `StartNetwork`: the faucet goroutine, the wallet
goroutine, or one of the goroutines of `RunNodeSets`. -/
inductive ServiceCall where
  | faucet (fc : Faucet)
  | wallet (wallet : Wallet)
  | nodeSet (job : Job)
  deriving DecidableEq

/-- Whether the call is made by a goroutine of `RunNodeSets`. -/
def ServiceCall.isNodeSet : ServiceCall → Bool
  | ServiceCall.nodeSet _ => true
  | _ => false

/-- The calls of the second group, in the order their goroutines are spawned (lines 285-316 and
155-160). -/
def serviceCalls (conf : Config) (svcs : GeneratedServices) : List ServiceCall :=
  (match svcs.Faucet with
    | some fc => [ServiceCall.faucet fc]
    | none => [])
  ++ (match svcs.Wallet with
    | some wallet => [ServiceCall.wallet wallet]
    | none => [])
  ++ (nodeSetJobs conf.VegaBinary svcs.NodeSets.ToSlice).map ServiceCall.nodeSet

/-- The step a call of the second group takes. -/
def serviceStep (c : Client) (conf : Config) : ServiceCall → RunState → RunState × Option String
  | ServiceCall.faucet fc => faucetStep c conf fc
  | ServiceCall.wallet wallet => walletStep c conf wallet
  | ServiceCall.nodeSet job => nodeSetCallStep c job

/-- The position right after the last node-set call of an order of calls. -/
def afterLastNodeSet (order : List ServiceCall) : Nat :=
  order.length - (order.reverse.takeWhile (fun call => !call.isNodeSet)).length

/-- The orders of one `StartNetwork` call: the pick list of the pre-start group, the pick list
of the calls of the second group (faucet, wallet and node-set calls interleave freely), and the
number of further calls that pass between the last node-set call and the return of
`RunNodeSets`. -/
structure Picks where
  preStart : List Nat
  services : List Nat
  returnDelay : Nat

/-- The steps of the second group of `StartNetwork` (lines 285-328), in the order they are
taken: the calls in the order the pick list gives, the return of `RunNodeSets` coming after its
last call, `returnDelay` calls later. -/
def serviceSteps (c : Client) (picks : Picks) (conf : Config) (svcs : GeneratedServices) :
    List (RunState → RunState × Option String) :=
  let jobs := nodeSetJobs conf.VegaBinary svcs.NodeSets.ToSlice
  let order := schedule picks.services (serviceCalls conf svcs)
  let k := afterLastNodeSet order + picks.returnDelay
  (order.take k).map (serviceStep c conf) ++ [nodeSetsReturnStep jobs] ++
    (order.drop k).map (serviceStep c conf)

/-- What a `StartNetwork` call leaves behind: the scheduler log and the two returned values. -/
structure StartResult where
  log : List Event
  jobs : Option NetworkJobs
  err : Option String
  deriving DecidableEq

/-- The first error group of `StartNetwork` with its `Wait` (lines 255-279): one goroutine per
pre-start container, started on the fresh record `result`. -/
def preStartGroup (c : Client) (picks : Picks) (conf : Config) (log : List Event) :
    RunState × Option String :=
  let result : NetworkJobs :=
    { NodesSetsJobIDs := JobIDMap.empty, ExtraJobIDs := JobIDMap.empty,
      FaucetJobID := "", WalletJobID := "" }
  errgroupWait picks.preStart (conf.PreStartDocker.map (preStartStep c))
    { log := log, result := result, nodeSetsErr := none }

/-- The second error group of `StartNetwork` with its `Wait` (lines 284-330): every step is
taken, and `Wait` returns the first error a goroutine of the group returned. -/
def servicesGroup (c : Client) (picks : Picks) (conf : Config) (svcs : GeneratedServices)
    (s : RunState) : RunState × Option String :=
  runAll (serviceSteps c picks conf svcs) s

/-- The function `StartNetwork` (lines 254-334). -/
def StartNetwork (c : Client) (picks : Picks) (conf : Config) (svcs : GeneratedServices)
    (log : List Event) : StartResult :=
  match preStartGroup c picks conf log with
  | (s1, some err) =>
    { log := s1.log, jobs := none, err := some ("failed to wait for pre-start jobs: " ++ err) }
  | (s1, none) =>
    match servicesGroup c picks conf svcs s1 with
    | (s2, some err) =>
      { log := s2.log, jobs := none, err := some ("failed to start vega network: " ++ err) }
    | (s2, none) => { log := s2.log, jobs := some s2.result, err := none }

/-- The goroutine started for one job name (lines 355-360 and 381-386). -/
def stopStep (c : Client) (jobName : String) (log : List Event) : List Event × Option String :=
  (log ++ [Event.stop jobName true (c.Stop log jobName true)],
    (c.Stop log jobName true).map
      (fun err => "cannot stop nomad job \"" ++ jobName ++ "\": " ++ err))

/-- The slice `allJobs` of `StopNetwork` (lines 342-346). -/
def stopList (jobs : NetworkJobs) (nodesOnly : Bool) : List String :=
  let allJobs : List String :=
    if !nodesOnly then jobs.ExtraJobIDs.ToSlice ++ [jobs.WalletJobID, jobs.FaucetJobID] else []
  allJobs ++ jobs.NodesSetsJobIDs.ToSlice

/-- The function `StopNetwork` (lines 336-365); `jobs = none` is the `nil` record. -/
def StopNetwork (c : Client) (picks : List Nat) (jobs : Option NetworkJobs) (nodesOnly : Bool)
    (log : List Event) : List Event × Option String :=
  match jobs with
  | none => (log, none)
  | some jobs =>
    errgroupWait picks (((stopList jobs nodesOnly).filter (fun jobName => jobName ≠ "")).map
      (stopStep c)) log

/-- The function `StopJobs` (lines 367-391). -/
def StopJobs (c : Client) (picks : List Nat) (jobIDs : List String) (log : List Event) :
    List Event × Option String :=
  if jobIDs.length = 0 then (log, none)
  else errgroupWait picks ((jobIDs.filter (fun jobName => jobName ≠ "")).map (stopStep c)) log


/-! ## Templating node sets (`cmd/template_node_sets.go`) -/

/-- The `state.NetworkState` record, the part the command reads. -/
structure NetworkState where
  Config : Config
  GeneratedServices : GeneratedServices
  deriving DecidableEq

/-- The package-level variables of `cmd` the templating functions read: the selector flags
`--nodeset-group-name` and `--nodeset-name`, `--with-merge`, `--update-network` and the output
directory. -/
structure Flags where
  nodeSetsGroupsNames : List String
  nodeSetsNames : List String
  withMerge : Bool
  templateUpdateNetwork : Bool
  templateOutDir : String
  deriving DecidableEq

/-- Modelled from the spec: the constants of `templateKindType`, declared outside the sources;
the template kinds are `vega`, `tendermint`, `data-node` and `visor-run`. -/
def vegaNodeSetTemplateType : String := "vega"

/-- Modelled from the spec: the template kind `tendermint`. -/
def tendermintNodeSetTemplateType : String := "tendermint"

/-- Modelled from the spec: the template kind `data-node`. -/
def dataNodeNodeSetTemplateType : String := "data-node"

/-- Modelled from the spec: the template kind `visor-run`. -/
def visorRunNodeSetTemplateType : String := "visor-run"

/-- Modelled from the spec: `types.NodeSetFilter`, a predicate on node sets; the type and the
three functions below are not among the sources. -/
abbrev NodeSetFilter := NodeSet → Bool

/-- Modelled from the spec: `types.NodeSetFilterByNames`; `node_set_names` match by exact
`Name`, a node set passing when its name is one of the list. -/
def NodeSetFilterByNames (names : List String) : NodeSetFilter :=
  fun ns => names.contains ns.Name

/-- Modelled from the spec: `types.NodeSetFilterByGroupNames`; `node_set_group_names` match by
exact `GroupName`, a node set passing when its group name is one of the list. -/
def NodeSetFilterByGroupNames (groupNames : List String) : NodeSetFilter :=
  fun ns => groupNames.contains ns.GroupName

/-- Modelled from the spec: `types.FilterNodeSets`; the filters are combined, a node set being
kept when it passes every filter, and the order of the sequence is kept. -/
def FilterNodeSets (nodeSets : List NodeSet) (filters : List NodeSetFilter) : List NodeSet :=
  nodeSets.filter (fun ns => filters.all (fun f => f ns))

/-- The verb `%v` applied to a slice of strings. -/
def formatSlice (l : List String) : String := "[" ++ " ".intercalate l ++ "]"

/-- The function `filterNodesSets` (lines 209-229); the returned slice is `[]` where the source
returns `nil`. -/
def filterNodesSets (netState : NetworkState) (nodeSetsNames nodeSetsGroupsNames : List String) :
    List NodeSet × Option String :=
  if nodeSetsGroupsNames.length = 0 ∧ nodeSetsNames.length = 0 then
    ([], some "either of 'nodeset-name', 'nodeset-group-name' flags must be defined to template node set")
  else
    let filters : List NodeSetFilter := []
    let filters :=
      if nodeSetsNames.length > 0 then filters ++ [NodeSetFilterByNames nodeSetsNames]
      else filters
    let filters :=
      if nodeSetsGroupsNames.length > 0 then
        filters ++ [NodeSetFilterByGroupNames nodeSetsGroupsNames]
      else filters
    let nodeSets := FilterNodeSets netState.GeneratedServices.NodeSets.ToSlice filters
    if nodeSets.length = 0 then
      ([], some ("node set group with given criteria [names: '" ++ formatSlice nodeSetsNames ++
        "', groups-names: '" ++ formatSlice nodeSetsGroupsNames ++ "'] not found"))
    else (nodeSets, none)

/-- What the templating command does to the outside, in order: a template parser is built, a
generator is built, a render function is called, a file is written, the network state is
updated. A write and an update carry the error they returned. -/
inductive Effect where
  | newTemplate (kind : String) (templateRaw : String)
  | newGenerator (kind : String)
  | render (merge : Bool) (ns : NodeSet)
  | write (path : String) (buff : String) (err : Option String)
  | update (kind : String) (ns : NodeSet) (buff : String) (err : Option String)
  deriving DecidableEq

/-- The type `templateFunc` (line 104); a buffer is the text it holds. -/
abbrev templateFunc (Tmpl : Type) := NodeSet → Tmpl → Except String String

/-- The generator packages `tendermint` and `datanode`, whose generator is built from the
configuration and the node sets. -/
structure NodeSetsGenerator (Tmpl Gen : Type) where
  NewConfigTemplate : String → Except String Tmpl
  NewConfigGenerator : Config → List NodeSet → Except String Gen
  TemplateConfig : Gen → templateFunc Tmpl
  TemplateAndMergeConfig : Gen → templateFunc Tmpl

/-- The generator package `vega`, whose render functions also take the faucet. -/
structure VegaGenerator (Tmpl Gen : Type) where
  NewConfigTemplate : String → Except String Tmpl
  NewConfigGenerator : Config → Except String Gen
  TemplateConfig : Gen → NodeSet → Option Faucet → Tmpl → Except String String
  TemplateAndMergeConfig : Gen → NodeSet → Option Faucet → Tmpl → Except String String

/-- The generator package `visor`. -/
structure VisorGenerator (Tmpl Gen : Type) where
  NewConfigTemplate : String → Except String Tmpl
  NewGenerator : Config → Except String Gen
  TemplateConfig : Gen → templateFunc Tmpl
  TemplateAndMergeConfig : Gen → templateFunc Tmpl

/-- The collaborators of the templating command that are not among the sources: the four
generator packages, `path.Join`, and the helpers `outputTemplate(buff, path, true)` and
`updateTemplateForNode(kind, ns, buff)`, whose answer may depend on what was done before. -/
structure TemplateEnv (Tmpl Gen : Type) where
  tendermint : NodeSetsGenerator Tmpl Gen
  vega : VegaGenerator Tmpl Gen
  datanode : NodeSetsGenerator Tmpl Gen
  visor : VisorGenerator Tmpl Gen
  pathJoin : String → String → String
  outputTemplate : List Effect → String → String → Option String
  updateTemplateForNode : List Effect → String → NodeSet → String → Option String

/-- The render call of one round of the loop of `templateNodeSetConfig` (lines 184-188). -/
def renderNodeSet {Tmpl : Type} (flags : Flags) (templateF templateAndMergeF : templateFunc Tmpl)
    (template : Tmpl) (ns : NodeSet) : Except String String :=
  if flags.withMerge then templateAndMergeF ns template else templateF ns template

/-- The function `templateNodeSetConfig` (lines 174-207), by recursion on the node sets the loop
ranges over. -/
def templateNodeSetConfig {Tmpl Gen : Type} (env : TemplateEnv Tmpl Gen) (flags : Flags)
    (templateF templateAndMergeF : templateFunc Tmpl) (tmplType : String) (template : Tmpl) :
    List NodeSet → List Effect → List Effect × Option String
  | [], trace => (trace, none)
  | ns :: nodeSets, trace =>
    let rendered := trace ++ [Effect.render flags.withMerge ns]
    match renderNodeSet flags templateF templateAndMergeF template ns with
    | .error err => (rendered, some err)
    | .ok buff =>
      if flags.templateUpdateNetwork then
        match env.updateTemplateForNode rendered tmplType ns buff with
        | some err =>
          (rendered ++ [Effect.update tmplType ns buff (some err)],
            some ("failed to update template for node " ++ toString ns.Index ++ ": " ++ err))
        | none =>
          templateNodeSetConfig env flags templateF templateAndMergeF tmplType template nodeSets
            (rendered ++ [Effect.update tmplType ns buff none])
      else
        let fileName := tmplType ++ "-" ++ ns.Name ++ ".conf"
        let filePath := env.pathJoin flags.templateOutDir fileName
        match env.outputTemplate rendered buff filePath with
        | some err =>
          (rendered ++ [Effect.write filePath buff (some err)],
            some ("failed to print generated template for node " ++ toString ns.Index ++ ": " ++
              err))
        | none =>
          templateNodeSetConfig env flags templateF templateAndMergeF tmplType template nodeSets
            (rendered ++ [Effect.write filePath buff none])

/-- The function `templateNodeSets` (lines 106-172). The verb `%q` of the last message is
written as plain double quotes. -/
def templateNodeSets {Tmpl Gen : Type} (env : TemplateEnv Tmpl Gen) (flags : Flags)
    (tmplType : String) (templateRaw : String) (netState : NetworkState) (trace : List Effect) :
    List Effect × Option String :=
  match filterNodesSets netState flags.nodeSetsNames flags.nodeSetsGroupsNames with
  | (_, some err) => (trace, some err)
  | (nodeSets, none) =>
    let parsed := trace ++ [Effect.newTemplate tmplType templateRaw]
    let built := parsed ++ [Effect.newGenerator tmplType]
    if tmplType = tendermintNodeSetTemplateType then
      match env.tendermint.NewConfigTemplate templateRaw with
      | .error err => (parsed, some err)
      | .ok tmpl =>
        match env.tendermint.NewConfigGenerator netState.Config
            netState.GeneratedServices.NodeSets.ToSlice with
        | .error err => (built, some err)
        | .ok gen =>
          templateNodeSetConfig env flags (env.tendermint.TemplateConfig gen)
            (env.tendermint.TemplateAndMergeConfig gen) tmplType tmpl nodeSets built
    else if tmplType = vegaNodeSetTemplateType then
      match env.vega.NewConfigTemplate templateRaw with
      | .error err => (parsed, some err)
      | .ok tmpl =>
        match env.vega.NewConfigGenerator netState.Config with
        | .error err => (built, some err)
        | .ok gen =>
          let templateF : templateFunc Tmpl := fun ns tmpl =>
            env.vega.TemplateConfig gen ns netState.GeneratedServices.Faucet tmpl
          let templateAndMergeF : templateFunc Tmpl := fun ns tmpl =>
            env.vega.TemplateAndMergeConfig gen ns netState.GeneratedServices.Faucet tmpl
          templateNodeSetConfig env flags templateF templateAndMergeF tmplType tmpl nodeSets built
    else if tmplType = dataNodeNodeSetTemplateType then
      match env.datanode.NewConfigTemplate templateRaw with
      | .error err => (parsed, some err)
      | .ok tmpl =>
        match env.datanode.NewConfigGenerator netState.Config
            netState.GeneratedServices.NodeSets.ToSlice with
        | .error err => (built, some err)
        | .ok gen =>
          templateNodeSetConfig env flags (env.datanode.TemplateConfig gen)
            (env.datanode.TemplateAndMergeConfig gen) tmplType tmpl nodeSets built
    else if tmplType = visorRunNodeSetTemplateType then
      match env.visor.NewConfigTemplate templateRaw with
      | .error err => (parsed, some err)
      | .ok tmpl =>
        match env.visor.NewGenerator netState.Config with
        | .error err => (built, some err)
        | .ok gen =>
          templateNodeSetConfig env flags (env.visor.TemplateConfig gen)
            (env.visor.TemplateAndMergeConfig gen) tmplType tmpl nodeSets built
    else (trace, some ("template type \"" ++ tmplType ++ "\" does not exists"))

/-- An effect on the file system or on the network state: a file write or an update. -/
def Effect.isOutput : Effect → Bool
  | Effect.write _ _ _ => true
  | Effect.update _ _ _ _ => true
  | _ => false

/-! ## Properties of descriptors -/

/-- A descriptor with exactly one task group, whose restart policy is zero attempts and mode
`fail`. -/
def oneGroupNoRestart (job : Job) : Prop :=
  job.TaskGroups.length = 1 ∧
    ∀ g ∈ job.TaskGroups, g.RestartPolicy = some { Attempts := some 0, Mode := some "fail" }

/-- The argument vector of a task: the `args` entry of its `Config`. -/
def Task.argv (t : Task) : Option (List String) :=
  match t.config "args" with
  | some (ConfigValue.strs l) => some l
  | _ => none

/-- The command of a task: the `command` entry of its `Config`. -/
def Task.command (t : Task) : Option String :=
  match t.config "command" with
  | some (ConfigValue.str s) => some s
  | _ => none

/-- The key list the node-set goroutine of `StartNetwork` leaves in an empty map: the names of
the node sets, each kept once. -/
def nodeSetKeys (nodeSets : List NodeSet) : JobIDMap :=
  (nodeSets.map NodeSet.Name).foldl JobIDMap.set JobIDMap.empty

/-- The message `msg` contains the text `name`. -/
def mentions (msg name : String) : Prop := name.data <:+: msg.data

instance (msg name : String) : Decidable (mentions msg name) := by
  unfold mentions
  infer_instance

/-- The job of a scheduler call, when the call is a submission. -/
def Event.job : Event → Option Job
  | Event.run job _ => some job
  | Event.stop _ _ _ => none

/-- The descriptors of the second group of `StartNetwork`: the faucet job and the wallet job,
when the service was generated, and the node-set jobs. -/
def serviceJobs (conf : Config) (svcs : GeneratedServices) : List Job :=
  (match svcs.Faucet with
    | some fc => [faucetJob conf.VegaBinary conf.Faucet fc]
    | none => [])
  ++ (match svcs.Wallet with
    | some wallet => [walletJob conf.Wallet wallet]
    | none => [])
  ++ nodeSetJobs conf.VegaBinary svcs.NodeSets.ToSlice

/-! ## Sample inputs -/

/-- A scheduler that accepts every job and every stop request. -/
def acceptAll : Client := { RunAndWait := fun _ _ => none, Stop := fun _ _ _ => none }

/-- A scheduler that rejects every job with the cause `boom`. -/
def rejectAll : Client := { RunAndWait := fun _ _ => some "boom", Stop := fun _ _ _ => none }

/-- A record in which the extra job and the faucet job carry the IDs of node-set jobs. -/
def overlapJobs : NetworkJobs :=
  { NodesSetsJobIDs := ⟨["n0", "n1"]⟩, ExtraJobIDs := ⟨["n0"]⟩,
    FaucetJobID := "n1", WalletJobID := "" }

/-- The record of the happy start scenario: one extra job, two node sets, no faucet, no wallet. -/
def happyJobs : NetworkJobs :=
  { NodesSetsJobIDs := ⟨["n0", "n1"]⟩, ExtraJobIDs := ⟨["pg"]⟩,
    FaucetJobID := "", WalletJobID := "" }

/-- A scheduler that rejects the job whose ID is `n1` and accepts every other job. -/
def rejectN1 : Client :=
  { RunAndWait := fun _ job => if job.id = "n1" then some "boom" else none
    Stop := fun _ _ _ => none }

/-- A data node. -/
def sampleDataNode : DataNode :=
  { Name := "dn", HomeDir := "/home/dn", BinaryPath := "/bin/data-node" }

/-- A node set with the given name and optional data node. -/
def sampleNodeSet (name : String) (dn : Option DataNode) : NodeSet :=
  { GroupName := "validators", Name := name, Mode := "validator", Index := 0
    Vega := { Name := "vega", HomeDir := "/home/vega", NodeWalletPassFilePath := "/home/pass" }
    Tendermint := { Name := "tendermint", HomeDir := "/home/tm", GenesisFilePath := "/home/gen" }
    DataNode := dn }

/-- The pre-start container of the happy start scenario. -/
def pgDocker : DockerConfig :=
  { Name := "pg", Image := "postgres:14", Command := "", Args := [], Env := [],
    StaticPort := none }

/-- The configuration of the happy start scenario. -/
def happyConfig : Config :=
  { VegaBinary := "vega", PreStartDocker := [pgDocker], Faucet := { Name := "faucet" },
    Wallet := { Binary := "vegawallet" } }

/-- The services of the happy start scenario: `n0` with a data node, `n1` without. -/
def happyServices : GeneratedServices :=
  { Wallet := none, Faucet := none
    NodeSets := ⟨[sampleNodeSet "n0" (some sampleDataNode), sampleNodeSet "n1" none]⟩ }

/-- The orders under which every goroutine runs in the order it was spawned. -/
def spawnOrder : Picks := { preStart := [], services := [], returnDelay := 0 }

/-- A second pre-start container. -/
def redisDocker : DockerConfig :=
  { Name := "redis", Image := "redis:7", Command := "", Args := [], Env := [],
    StaticPort := some { To := 6379, Value := 6379 } }

/-- A configuration with two pre-start containers. -/
def twoDockerConfig : Config :=
  { VegaBinary := "vega", PreStartDocker := [pgDocker, redisDocker],
    Faucet := { Name := "faucet" }, Wallet := { Binary := "vegawallet" } }

/-- A generator package that parses every template and renders the template text followed by
the name of the node set. -/
def sampleGenerator : NodeSetsGenerator String Unit :=
  { NewConfigTemplate := fun raw => .ok raw
    NewConfigGenerator := fun _ _ => .ok ()
    TemplateConfig := fun _ ns tmpl => .ok (tmpl ++ ns.Name)
    TemplateAndMergeConfig := fun _ ns tmpl => .ok (tmpl ++ ns.Name ++ "+merged") }

/-- Collaborators that never fail; paths are joined with a slash. -/
def sampleEnv : TemplateEnv String Unit :=
  { tendermint := sampleGenerator
    datanode := sampleGenerator
    vega :=
      { NewConfigTemplate := fun raw => .ok raw
        NewConfigGenerator := fun _ => .ok ()
        TemplateConfig := fun _ ns _ tmpl => .ok (tmpl ++ ns.Name)
        TemplateAndMergeConfig := fun _ ns _ tmpl => .ok (tmpl ++ ns.Name ++ "+merged") }
    visor :=
      { NewConfigTemplate := fun raw => .ok raw
        NewGenerator := fun _ => .ok ()
        TemplateConfig := fun _ ns tmpl => .ok (tmpl ++ ns.Name)
        TemplateAndMergeConfig := fun _ ns tmpl => .ok (tmpl ++ ns.Name ++ "+merged") }
    pathJoin := fun dir file => dir ++ "/" ++ file
    outputTemplate := fun _ _ _ => none
    updateTemplateForNode := fun _ _ _ _ => none }

/-- A node set with the given name and group. -/
def groupNodeSet (name group : String) : NodeSet :=
  { sampleNodeSet name none with GroupName := group }

/-- The state of the templating scenarios: `v0` and `v1` in group `validators`, `f0` in group
`full`. -/
def groupState : NetworkState :=
  { Config := happyConfig
    GeneratedServices :=
      { Wallet := none, Faucet := none
        NodeSets := ⟨[groupNodeSet "v0" "validators", groupNodeSet "v1" "validators",
                      groupNodeSet "f0" "full"]⟩ } }

/-- The flags of the scenario templating by group: `--nodeset-group-name=validators`. -/
def groupFlags : Flags :=
  { nodeSetsGroupsNames := ["validators"], nodeSetsNames := [], withMerge := false,
    templateUpdateNetwork := false, templateOutDir := "out" }

/-- The flags of the scenario with no selector. -/
def noSelectorFlags : Flags :=
  { nodeSetsGroupsNames := [], nodeSetsNames := [], withMerge := false,
    templateUpdateNetwork := false, templateOutDir := "out" }

/-- Collaborators whose file writer fails on the file of node set `f0` and nowhere else. -/
def pickyEnv : TemplateEnv String Unit :=
  { sampleEnv with
    outputTemplate := fun _ _ filePath =>
      if filePath = "out/vega-f0.conf" then some "disk full" else none }

/-- A faucet. -/
def sampleFaucet : Faucet :=
  { Name := "fc", HomeDir := "/home/faucet", PublicKey := "", ConfigFilePath := "",
    WalletFilePath := "", WalletPassFilePath := "/home/faucet/pass" }

/-- A wallet. -/
def sampleWallet : Wallet :=
  { Name := "wl", HomeDir := "/home/wallet", Network := "testnet", ServiceConfigFilePath := "",
    PublicKeyFilePath := "", PrivateKeyFilePath := "" }

/-- The services of the happy start scenario with a faucet and a wallet added. -/
def fullServices : GeneratedServices :=
  { Wallet := some sampleWallet, Faucet := some sampleFaucet, NodeSets := happyServices.NodeSets }

/-- Orders under which the calls of the second group go `n0`, faucet, `n1`, wallet. -/
def mixedOrder : Picks := { preStart := [], services := [2, 0, 1], returnDelay := 0 }

/-! ## Lemmas and theorems -/

set_option maxRecDepth 100000

theorem perm_cons_eraseIdx {α : Type} :
    ∀ (ts : List α) (i : Nat) (t : α), ts[i]? = some t → ts.Perm (t :: ts.eraseIdx i)
  | [], i, t, h => by simp at h
  | a :: ts, 0, t, h => by
    simp at h
    subst h
    simp
  | a :: ts, i + 1, t, h => by
    simp at h
    have ih := perm_cons_eraseIdx ts i t h
    simp only [List.eraseIdx_cons_succ]
    exact (List.Perm.cons a ih).trans (List.Perm.swap t a _)

theorem eraseIdx_map {α β : Type} (f : α → β) :
    ∀ (ts : List α) (i : Nat), (ts.map f).eraseIdx i = (ts.eraseIdx i).map f
  | [], i => by simp
  | a :: ts, 0 => by simp
  | a :: ts, i + 1 => by simp [eraseIdx_map f ts i]

theorem schedule_perm {α : Type} : ∀ (ks : List Nat) (ts : List α), (schedule ks ts).Perm ts
  | [], ts => by simp [schedule]
  | k :: ks, ts => by
    simp only [schedule]
    cases h : ts[k % ts.length]? with
    | none =>
      have hts : ts = [] := by
        cases ts with
        | nil => rfl
        | cons a l =>
          exfalso
          have hlt : k % (a :: l).length < (a :: l).length := Nat.mod_lt _ (by simp)
          rw [List.getElem?_eq_none_iff] at h
          omega
      simp [hts]
    | some t =>
      exact ((schedule_perm ks _).cons t).trans (perm_cons_eraseIdx ts _ t h).symm

theorem schedule_map {α β : Type} (f : α → β) :
    ∀ (ks : List Nat) (ts : List α), schedule ks (ts.map f) = (schedule ks ts).map f
  | [], ts => rfl
  | k :: ks, ts => by
    simp only [schedule, List.length_map, List.getElem?_map]
    cases h : ts[k % ts.length]? with
    | none => simp
    | some t => simp [eraseIdx_map, schedule_map f ks]

/-- Every order of the goroutines is the order some pick list gives. -/
theorem schedule_surjective {α : Type} :
    ∀ (l2 l : List α), l2.Perm l → ∃ ks, schedule ks l = l2
  | [], l, h => by
    have : l = [] := by simpa using h.symm.eq_nil
    exact ⟨[], by simp [schedule, this]⟩
  | a :: l2, l, h => by
    have ha : a ∈ l := h.subset (List.mem_cons_self a l2)
    obtain ⟨i, hi, hget⟩ := List.getElem_of_mem ha
    have hsome : l[i]? = some a := by simp [List.getElem?_eq_getElem hi, hget]
    have hp : l.Perm (a :: l.eraseIdx i) := perm_cons_eraseIdx l i a hsome
    have hrest : l2.Perm (l.eraseIdx i) := List.Perm.cons_inv (h.trans hp)
    obtain ⟨ks, hks⟩ := schedule_surjective l2 (l.eraseIdx i) hrest
    refine ⟨i :: ks, ?_⟩
    simp [schedule, Nat.mod_eq_of_lt hi, hsome, hks]


theorem runAll_cons_fst {σ : Type} (t : σ → σ × Option String)
    (ts : List (σ → σ × Option String)) (s : σ) :
    (runAll (t :: ts) s).1 = (runAll ts (t s).1).1 := by
  simp only [runAll]
  split <;> rfl

theorem runAll_stopStep (c : Client) :
    ∀ (ids : List String) (log : List Event),
      ∃ calls, (runAll (ids.map (stopStep c)) log).1 = log ++ calls ∧
        (∀ ev ∈ calls, ∃ id err, id ∈ ids ∧ ev = Event.stop id true err) ∧
        (∀ id ∈ ids, ∃ err, Event.stop id true err ∈ calls)
  | [], log => ⟨[], by simp [runAll]⟩
  | id :: ids, log => by
    obtain ⟨calls, h1, h2, h3⟩ :=
      runAll_stopStep c ids (log ++ [Event.stop id true (c.Stop log id true)])
    refine ⟨Event.stop id true (c.Stop log id true) :: calls, ?_, ?_, ?_⟩
    · rw [List.map_cons, runAll_cons_fst]
      simpa [stopStep] using h1
    · intro ev hev
      rcases List.mem_cons.1 hev with rfl | hev
      · exact ⟨id, _, List.mem_cons_self _ _, rfl⟩
      · obtain ⟨i, err, hi, rfl⟩ := h2 ev hev
        exact ⟨i, err, List.mem_cons_of_mem _ hi, rfl⟩
    · intro i hi
      rcases List.mem_cons.1 hi with rfl | hi
      · exact ⟨_, List.mem_cons_self _ _⟩
      · obtain ⟨err, herr⟩ := h3 i hi
        exact ⟨err, List.mem_cons_of_mem _ herr⟩

/-- The stop calls of one `StopNetwork` call on a record: one per non-empty entry of `allJobs`,
each with `purge = true`. -/
theorem StopNetwork_some (c : Client) (picks : List Nat) (jobs : NetworkJobs) (nodesOnly : Bool)
    (log : List Event) :
    ∃ calls, (StopNetwork c picks (some jobs) nodesOnly log).1 = log ++ calls ∧
      (∀ ev ∈ calls, ∃ id err, (id ∈ stopList jobs nodesOnly ∧ id ≠ "") ∧
        ev = Event.stop id true err) ∧
      (∀ id, id ∈ stopList jobs nodesOnly → id ≠ "" → ∃ err, Event.stop id true err ∈ calls) := by
  simp only [StopNetwork, errgroupWait, schedule_map]
  obtain ⟨calls, h1, h2, h3⟩ := runAll_stopStep c
    (schedule picks ((stopList jobs nodesOnly).filter (fun jobName => jobName ≠ ""))) log
  have hmem : ∀ id, id ∈ schedule picks
      ((stopList jobs nodesOnly).filter (fun jobName => jobName ≠ "")) ↔
      (id ∈ stopList jobs nodesOnly ∧ id ≠ "") := by
    intro id
    rw [(schedule_perm picks _).mem_iff]
    simp
  refine ⟨calls, h1, ?_, ?_⟩
  · intro ev hev
    obtain ⟨id, err, hid, rfl⟩ := h2 ev hev
    exact ⟨id, err, (hmem id).1 hid, rfl⟩
  · intro id hid hne
    exact h3 id ((hmem id).2 ⟨hid, hne⟩)

theorem mem_stopList (jobs : NetworkJobs) (nodesOnly : Bool) (id : String) :
    id ∈ stopList jobs nodesOnly ↔
      (id ∈ jobs.NodesSetsJobIDs.ToSlice ∨
        (nodesOnly = false ∧
          (id ∈ jobs.ExtraJobIDs.ToSlice ∨ id = jobs.WalletJobID ∨ id = jobs.FaucetJobID))) := by
  cases nodesOnly
  · simp [stopList]
    tauto
  · simp [stopList]

/-- C1. `StopNetwork` on the `nil` record returns success and leaves the scheduler log as it
was; on a record, for both values of `nodesOnly`, the IDs it calls `stop` on are exactly the
non-empty IDs among the `NodesSetsJobIDs` entries and, only when `nodesOnly = false`, the
`ExtraJobIDs` entries, `WalletJobID` and `FaucetJobID`; every call is made with `purge = true`. -/
theorem StopNetwork_stop_calls (c : Client) (picks : List Nat) (nodesOnly : Bool)
    (log : List Event) :
    StopNetwork c picks none nodesOnly log = (log, none) ∧
    ∀ jobs : NetworkJobs, ∃ calls : List Event,
      (StopNetwork c picks (some jobs) nodesOnly log).1 = log ++ calls ∧
      (∀ ev ∈ calls, ∃ id err, ev = Event.stop id true err) ∧
      (∀ id : String, (∃ purge err, Event.stop id purge err ∈ calls) ↔
        id ≠ "" ∧ (id ∈ jobs.NodesSetsJobIDs.ToSlice ∨
          (nodesOnly = false ∧ (id ∈ jobs.ExtraJobIDs.ToSlice ∨ id = jobs.WalletJobID ∨
            id = jobs.FaucetJobID)))) := by
  refine ⟨rfl, ?_⟩
  intro jobs
  obtain ⟨calls, h1, h2, h3⟩ := StopNetwork_some c picks jobs nodesOnly log
  refine ⟨calls, h1, ?_, ?_⟩
  · intro ev hev
    obtain ⟨id, err, _, rfl⟩ := h2 ev hev
    exact ⟨id, err, rfl⟩
  · intro id
    rw [← mem_stopList]
    constructor
    · rintro ⟨purge, err, hmem⟩
      obtain ⟨id2, err2, ⟨hin, hne⟩, heq⟩ := h2 _ hmem
      cases heq
      exact ⟨hne, hin⟩
    · rintro ⟨hne, hin⟩
      obtain ⟨err, herr⟩ := h3 id hin hne
      exact ⟨true, err, herr⟩

/-- C2, as stated, fails: on a record whose extra job and faucet job carry the IDs of node-set
jobs, `StopNetwork` with `nodesOnly = true` calls `stop` with an `ExtraJobIDs` entry and with
`FaucetJobID`. -/
theorem StopNetwork_nodesOnly_overlap :
    (∃ id, id ∈ overlapJobs.ExtraJobIDs.ToSlice ∧
      Event.stop id true none ∈ (StopNetwork acceptAll [] (some overlapJobs) true []).1) ∧
    Event.stop overlapJobs.FaucetJobID true none ∈
      (StopNetwork acceptAll [] (some overlapJobs) true []).1 := by
  refine ⟨⟨"n0", ?_, ?_⟩, ?_⟩ <;> decide

/-- C2, amended. `StopNetwork` with `nodesOnly = true` never calls `stop` with the record's
`FaucetJobID`, its `WalletJobID` or an ID of its `ExtraJobIDs`, unless that ID is also one of
the record's `NodesSetsJobIDs`. -/
theorem StopNetwork_nodesOnly_skips (c : Client) (picks : List Nat) (jobs : NetworkJobs)
    (log : List Event) (id : String)
    (_hid : id = jobs.FaucetJobID ∨ id = jobs.WalletJobID ∨ id ∈ jobs.ExtraJobIDs.ToSlice)
    (hnot : id ∉ jobs.NodesSetsJobIDs.ToSlice) :
    ∃ calls : List Event,
      (StopNetwork c picks (some jobs) true log).1 = log ++ calls ∧
      ∀ purge err, Event.stop id purge err ∉ calls := by
  obtain ⟨calls, h1, h2, _⟩ := StopNetwork_some c picks jobs true log
  refine ⟨calls, h1, ?_⟩
  intro purge err hmem
  obtain ⟨id2, err2, ⟨hin, _⟩, heq⟩ := h2 _ hmem
  cases heq
  rw [mem_stopList] at hin
  simp at hin
  exact hnot hin

/-- The nodes-only stop of the happy start scenario never stops the extra job `pg`. -/
theorem StopNetwork_nodesOnly_skips_witness :
    ("pg" = happyJobs.FaucetJobID ∨ "pg" = happyJobs.WalletJobID ∨
        "pg" ∈ happyJobs.ExtraJobIDs.ToSlice) ∧
      "pg" ∉ happyJobs.NodesSetsJobIDs.ToSlice ∧
      ∃ calls : List Event,
        (StopNetwork acceptAll [] (some happyJobs) true []).1 = [] ++ calls ∧
        ∀ purge err, Event.stop "pg" purge err ∉ calls :=
  ⟨by decide, by decide,
    StopNetwork_nodesOnly_skips acceptAll [] happyJobs [] "pg" (by decide) (by decide)⟩

theorem runAll_cons_snd {σ : Type} (t : σ → σ × Option String)
    (ts : List (σ → σ × Option String)) (s : σ) :
    (runAll (t :: ts) s).2 =
      match (t s).2 with
      | some err => some err
      | none => (runAll ts (t s).1).2 := by
  simp only [runAll]
  split <;> simp_all

/-- A property every step keeps is kept by the whole group. -/
theorem runAll_inv {σ : Type} (I : σ → Prop) :
    ∀ (ts : List (σ → σ × Option String)) (s : σ),
      (∀ t ∈ ts, ∀ s, I s → I (t s).1) → I s → I (runAll ts s).1
  | [], s, _, hs => by simpa [runAll] using hs
  | t :: ts, s, h, hs => by
    rw [runAll_cons_fst]
    exact runAll_inv I ts _ (fun t2 ht2 => h t2 (List.mem_cons_of_mem _ ht2))
      (h t (List.mem_cons_self _ _) s hs)

/-- When the group returns no error, every step returned none. A step that turns `I` into `J`
whenever it succeeds, in a group whose steps all keep `I` and keep `J`, leaves `J`. -/
theorem runAll_reach {σ : Type} (I J : σ → Prop) (t0 : σ → σ × Option String) :
    ∀ (ts : List (σ → σ × Option String)) (s : σ),
      (∀ t ∈ ts, ∀ s, I s → I (t s).1) → (∀ t ∈ ts, ∀ s, J s → J (t s).1) →
      (∀ s, I s → (t0 s).2 = none → J (t0 s).1) → t0 ∈ ts → I s →
      (runAll ts s).2 = none → J (runAll ts s).1
  | [], s, _, _, _, hmem, _, _ => by simp at hmem
  | t :: ts, s, hI, hJ, h0, hmem, hs, hok => by
    rw [runAll_cons_snd] at hok
    rw [runAll_cons_fst]
    cases ht : (t s).2 with
    | some err => simp [ht] at hok
    | none =>
      simp only [ht] at hok
      rcases List.mem_cons.1 hmem with rfl | hmem
      · exact runAll_inv J ts _ (fun t2 ht2 => hJ t2 (List.mem_cons_of_mem _ ht2))
          (h0 s hs ht)
      · exact runAll_reach I J t0 ts _ (fun t2 ht2 => hI t2 (List.mem_cons_of_mem _ ht2))
          (fun t2 ht2 => hJ t2 (List.mem_cons_of_mem _ ht2)) h0 hmem
          (hI t (List.mem_cons_self _ _) s hs) hok

theorem errgroupWait_inv {σ : Type} (I : σ → Prop) (picks : List Nat)
    (ts : List (σ → σ × Option String)) (s : σ)
    (h : ∀ t ∈ ts, ∀ s, I s → I (t s).1) (hs : I s) : I (errgroupWait picks ts s).1 :=
  runAll_inv I _ s (fun t ht => h t ((schedule_perm picks ts).mem_iff.1 ht)) hs

theorem errgroupWait_reach {σ : Type} (I J : σ → Prop) (t0 : σ → σ × Option String)
    (picks : List Nat) (ts : List (σ → σ × Option String)) (s : σ)
    (hI : ∀ t ∈ ts, ∀ s, I s → I (t s).1) (hJ : ∀ t ∈ ts, ∀ s, J s → J (t s).1)
    (h0 : ∀ s, I s → (t0 s).2 = none → J (t0 s).1) (hmem : t0 ∈ ts) (hs : I s)
    (hok : (errgroupWait picks ts s).2 = none) : J (errgroupWait picks ts s).1 :=
  runAll_reach I J t0 _ s (fun t ht => hI t ((schedule_perm picks ts).mem_iff.1 ht))
    (fun t ht => hJ t ((schedule_perm picks ts).mem_iff.1 ht)) h0
    ((schedule_perm picks ts).mem_iff.2 hmem) hs hok

/-! ### The map of job IDs -/

theorem JobIDMap.mem_set (m : JobIDMap) (id x : String) :
    x ∈ (m.set id).keys ↔ x ∈ m.keys ∨ x = id := by
  unfold JobIDMap.set
  split
  · constructor
    · exact Or.inl
    · rintro (h | rfl)
      · exact h
      · assumption
  · simp

theorem JobIDMap.nodup_set (m : JobIDMap) (id : String) (h : m.keys.Nodup) :
    (m.set id).keys.Nodup := by
  unfold JobIDMap.set
  split
  · exact h
  · rename_i hid
    simpa [List.nodup_append, h] using hid

theorem JobIDMap.mem_foldl_set (ids : List String) :
    ∀ (m : JobIDMap) (x : String), x ∈ (ids.foldl JobIDMap.set m).keys ↔ x ∈ m.keys ∨ x ∈ ids := by
  induction ids with
  | nil => simp
  | cons id ids ih =>
    intro m x
    rw [List.foldl_cons, ih, JobIDMap.mem_set]
    simp only [List.mem_cons]
    tauto

theorem JobIDMap.nodup_foldl_set (ids : List String) :
    ∀ (m : JobIDMap), m.keys.Nodup → (ids.foldl JobIDMap.set m).keys.Nodup := by
  induction ids with
  | nil => simp
  | cons id ids ih =>
    intro m h
    rw [List.foldl_cons]
    exact ih _ (JobIDMap.nodup_set m id h)

theorem JobIDMap.foldl_set_of_mem (ids : List String) :
    ∀ (m : JobIDMap), (∀ x ∈ ids, x ∈ m.keys) → ids.foldl JobIDMap.set m = m := by
  induction ids with
  | nil => simp
  | cons id ids ih =>
    intro m h
    have hid : id ∈ m.keys := h id (List.mem_cons_self _ _)
    have hset : m.set id = m := by simp [JobIDMap.set, hid]
    rw [List.foldl_cons, hset]
    exact ih m (fun x hx => h x (List.mem_cons_of_mem _ hx))

theorem nodeSetJobs_ids (vegaBinary : String) (nodeSets : List NodeSet) :
    (nodeSetJobs vegaBinary nodeSets).map Job.id = nodeSets.map NodeSet.Name := by
  simp [nodeSetJobs, nodeSetJob, Job.id, Function.comp_def]

theorem foldl_set_jobs (jobs : List Job) (m : JobIDMap) :
    jobs.foldl (fun m job => m.set job.id) m = (jobs.map Job.id).foldl JobIDMap.set m := by
  rw [List.foldl_map]

/-! ### The steps of `StartNetwork` -/

theorem runAll_append_fst {σ : Type} :
    ∀ (ts us : List (σ → σ × Option String)) (s : σ),
      (runAll (ts ++ us) s).1 = (runAll us (runAll ts s).1).1
  | [], us, s => by simp [runAll]
  | t :: ts, us, s => by
    rw [List.cons_append, runAll_cons_fst, runAll_cons_fst, runAll_append_fst ts us]

theorem runAll_append_snd {σ : Type} :
    ∀ (ts us : List (σ → σ × Option String)) (s : σ),
      (runAll (ts ++ us) s).2 =
        match (runAll ts s).2 with
        | some err => some err
        | none => (runAll us (runAll ts s).1).2
  | [], us, s => by simp [runAll]
  | t :: ts, us, s => by
    rw [List.cons_append, runAll_cons_snd, runAll_cons_snd, runAll_cons_fst,
      runAll_append_snd ts us]
    cases (t s).2 <;> rfl

theorem preStartStep_nodeSets (c : Client) (dc : DockerConfig) (s : RunState) :
    (preStartStep c dc s).1.result.NodesSetsJobIDs = s.result.NodesSetsJobIDs := by
  simp only [preStartStep, runDockerJob, Client.submit]
  cases c.RunAndWait s.log (dockerJob dc) <;> rfl

theorem serviceStep_nodeSets (c : Client) (conf : Config) (call : ServiceCall) (s : RunState) :
    (serviceStep c conf call s).1.result.NodesSetsJobIDs = s.result.NodesSetsJobIDs := by
  cases call with
  | faucet fc =>
    simp only [serviceStep, faucetStep, runFaucet, Client.submit]
    cases c.RunAndWait s.log (faucetJob conf.VegaBinary conf.Faucet fc) <;> rfl
  | wallet wallet =>
    simp only [serviceStep, walletStep, runWallet, Client.submit]
    cases c.RunAndWait s.log (walletJob conf.Wallet wallet) <;> rfl
  | nodeSet job => rfl

theorem nodeSetsReturnStep_nodeSets (vegaBinary : String) (nodeSets : List NodeSet)
    (s : RunState) :
    ((nodeSetsReturnStep (nodeSetJobs vegaBinary nodeSets) s).2 = none →
      (nodeSetsReturnStep (nodeSetJobs vegaBinary nodeSets) s).1.result.NodesSetsJobIDs =
        (nodeSets.map NodeSet.Name).foldl JobIDMap.set s.result.NodesSetsJobIDs) ∧
    ((nodeSetsReturnStep (nodeSetJobs vegaBinary nodeSets) s).2 ≠ none →
      (nodeSetsReturnStep (nodeSetJobs vegaBinary nodeSets) s).1.result.NodesSetsJobIDs =
        s.result.NodesSetsJobIDs) := by
  simp only [nodeSetsReturnStep, nodeSetsReturn]
  cases s.nodeSetsErr with
  | some err => simp
  | none => simp [foldl_set_jobs, nodeSetJobs_ids]

theorem nodeSetKeys_mem (nodeSets : List NodeSet) (x : String) :
    x ∈ (nodeSetKeys nodeSets).keys ↔ x ∈ nodeSets.map NodeSet.Name := by
  simp [nodeSetKeys, JobIDMap.mem_foldl_set, JobIDMap.empty]

theorem nodeSetKeys_nodup (nodeSets : List NodeSet) : (nodeSetKeys nodeSets).keys.Nodup :=
  JobIDMap.nodup_foldl_set _ _ (by simp [JobIDMap.empty])

theorem mem_serviceSteps (c : Client) (picks : Picks) (conf : Config) (svcs : GeneratedServices)
    (t : RunState → RunState × Option String) (ht : t ∈ serviceSteps c picks conf svcs) :
    (∃ call ∈ serviceCalls conf svcs, t = serviceStep c conf call) ∨
      t = nodeSetsReturnStep (nodeSetJobs conf.VegaBinary svcs.NodeSets.ToSlice) := by
  simp only [serviceSteps, List.mem_append, List.mem_singleton, List.mem_map] at ht
  rcases ht with (⟨call, hcall, rfl⟩ | rfl) | ⟨call, hcall, rfl⟩
  · exact Or.inl ⟨call, (schedule_perm _ _).mem_iff.1 (List.mem_of_mem_take hcall), rfl⟩
  · exact Or.inr rfl
  · exact Or.inl ⟨call, (schedule_perm _ _).mem_iff.1 (List.mem_of_mem_drop hcall), rfl⟩

theorem nodeSetsReturnStep_mem_serviceSteps (c : Client) (picks : Picks) (conf : Config)
    (svcs : GeneratedServices) :
    nodeSetsReturnStep (nodeSetJobs conf.VegaBinary svcs.NodeSets.ToSlice) ∈
      serviceSteps c picks conf svcs := by
  simp [serviceSteps]

/-- The record `StartNetwork` returns on success holds, as `NodesSetsJobIDs`, the names of the
node sets, each once. -/
theorem StartNetwork_ok_nodeSets (c : Client) (picks : Picks) (conf : Config)
    (svcs : GeneratedServices) (log : List Event)
    (hok : (StartNetwork c picks conf svcs log).err = none) :
    ∃ r, (StartNetwork c picks conf svcs log).jobs = some r ∧
      r.NodesSetsJobIDs = nodeSetKeys svcs.NodeSets.ToSlice := by
  have h1 : (preStartGroup c picks conf log).1.result.NodesSetsJobIDs = JobIDMap.empty := by
    unfold preStartGroup
    refine errgroupWait_inv (fun s : RunState => s.result.NodesSetsJobIDs = JobIDMap.empty)
      _ _ _ ?_ rfl
    intro t ht s hs
    obtain ⟨dc, _, rfl⟩ := List.mem_map.1 ht
    simpa [preStartStep_nodeSets] using hs
  have hfix : (svcs.NodeSets.ToSlice.map NodeSet.Name).foldl JobIDMap.set
      (nodeSetKeys svcs.NodeSets.ToSlice) = nodeSetKeys svcs.NodeSets.ToSlice :=
    JobIDMap.foldl_set_of_mem _ _ (fun x hx => (nodeSetKeys_mem _ x).2 hx)
  have hstep : ∀ (I : JobIDMap → Prop),
      (∀ m, I m → I ((svcs.NodeSets.ToSlice.map NodeSet.Name).foldl JobIDMap.set m)) →
      ∀ t ∈ serviceSteps c picks conf svcs, ∀ s : RunState,
        I s.result.NodesSetsJobIDs → I (t s).1.result.NodesSetsJobIDs := by
    intro I hI t ht s hs
    rcases mem_serviceSteps c picks conf svcs t ht with ⟨call, _, rfl⟩ | rfl
    · simpa [serviceStep_nodeSets] using hs
    · cases he : (nodeSetsReturnStep (nodeSetJobs conf.VegaBinary svcs.NodeSets.ToSlice) s).2 with
      | none =>
        rw [(nodeSetsReturnStep_nodeSets conf.VegaBinary svcs.NodeSets.ToSlice s).1 he]
        exact hI _ hs
      | some err =>
        rw [(nodeSetsReturnStep_nodeSets conf.VegaBinary svcs.NodeSets.ToSlice s).2
          (by simp [he])]
        exact hs
  have h2 : ∀ s1 : RunState, s1.result.NodesSetsJobIDs = JobIDMap.empty →
      (servicesGroup c picks conf svcs s1).2 = none →
      (servicesGroup c picks conf svcs s1).1.result.NodesSetsJobIDs =
        nodeSetKeys svcs.NodeSets.ToSlice := by
    intro s1 hs1 hnone
    unfold servicesGroup at hnone ⊢
    refine runAll_reach
      (fun s : RunState => s.result.NodesSetsJobIDs = JobIDMap.empty ∨
        s.result.NodesSetsJobIDs = nodeSetKeys svcs.NodeSets.ToSlice)
      (fun s : RunState => s.result.NodesSetsJobIDs = nodeSetKeys svcs.NodeSets.ToSlice)
      (nodeSetsReturnStep (nodeSetJobs conf.VegaBinary svcs.NodeSets.ToSlice)) _ _ ?_ ?_ ?_
      (nodeSetsReturnStep_mem_serviceSteps c picks conf svcs) (Or.inl hs1) hnone
    · exact hstep (fun m => m = JobIDMap.empty ∨ m = nodeSetKeys svcs.NodeSets.ToSlice) (by
        rintro m (rfl | rfl)
        · exact Or.inr rfl
        · exact Or.inr hfix)
    · exact hstep (fun m => m = nodeSetKeys svcs.NodeSets.ToSlice) (by
        rintro m rfl
        exact hfix)
    · intro s hs he
      rw [(nodeSetsReturnStep_nodeSets conf.VegaBinary svcs.NodeSets.ToSlice s).1 he]
      rcases hs with hs | hs
      · rw [hs]
        rfl
      · rw [hs]
        exact hfix
  unfold StartNetwork at hok ⊢
  rcases hp1 : preStartGroup c picks conf log with ⟨s1, e1⟩
  rw [hp1] at hok h1
  cases e1 with
  | some err => simp at hok
  | none =>
    simp only at hok ⊢
    rcases hp2 : servicesGroup c picks conf svcs s1 with ⟨s2, e2⟩
    rw [hp2] at hok
    cases e2 with
    | some err => simp at hok
    | none =>
      have := h2 s1 h1 (by rw [hp2])
      rw [hp2] at this
      exact ⟨s2.result, rfl, this⟩

/-- C3. When `StartNetwork` returns success on generated services whose node sets have pairwise
distinct names (the invariant of the data model), the number of entries of the returned
`NodesSetsJobIDs` equals the number of configured node sets, and the recorded IDs are the names
of the node sets, each being the job ID `RunNodeSets` gave that node set's descriptor. -/
theorem StartNetwork_nodeSet_ids (c : Client) (picks : Picks) (conf : Config)
    (svcs : GeneratedServices) (log : List Event)
    (hnames : svcs.NodeSets.uniqueNames)
    (hok : (StartNetwork c picks conf svcs log).err = none) :
    ∃ r, (StartNetwork c picks conf svcs log).jobs = some r ∧
      r.NodesSetsJobIDs.len = svcs.NodeSets.ToSlice.length ∧
      r.NodesSetsJobIDs.ToSlice.Perm (svcs.NodeSets.ToSlice.map NodeSet.Name) ∧
      (∀ id, id ∈ r.NodesSetsJobIDs.ToSlice ↔ ∃ ns ∈ svcs.NodeSets.ToSlice, ns.Name = id) ∧
      (nodeSetJobs conf.VegaBinary svcs.NodeSets.ToSlice).map Job.id =
        svcs.NodeSets.ToSlice.map NodeSet.Name ∧
      (∀ (p : List Nat) (l : List Event) (jobs : List Job),
        (RunNodeSets c p conf.VegaBinary svcs.NodeSets.ToSlice l).2 = .ok jobs →
          jobs.map Job.id = svcs.NodeSets.ToSlice.map NodeSet.Name) := by
  obtain ⟨r, hr, hkeys⟩ := StartNetwork_ok_nodeSets c picks conf svcs log hok
  have hmem := nodeSetKeys_mem svcs.NodeSets.ToSlice
  have hnd := nodeSetKeys_nodup svcs.NodeSets.ToSlice
  have hperm : (nodeSetKeys svcs.NodeSets.ToSlice).keys.Perm
      (svcs.NodeSets.ToSlice.map NodeSet.Name) :=
    (List.perm_ext_iff_of_nodup hnd hnames).2 hmem
  refine ⟨r, hr, ?_, ?_, ?_, nodeSetJobs_ids _ _, ?_⟩
  · rw [hkeys, JobIDMap.len]
    simpa using hperm.length_eq
  · rw [hkeys, JobIDMap.ToSlice]
    exact hperm
  · intro id
    rw [hkeys, JobIDMap.ToSlice, hmem]
    simp
  · intro p l jobs hjobs
    simp only [RunNodeSets, nodeSetsReturn] at hjobs
    split at hjobs
    · cases hjobs
    · cases hjobs
      exact nodeSetJobs_ids _ _

/-- The happy start scenario: two node sets `n0` and `n1`, two recorded IDs. -/
theorem StartNetwork_nodeSet_ids_witness :
    (StartNetwork acceptAll spawnOrder happyConfig happyServices []).jobs = some happyJobs ∧
    happyServices.NodeSets.uniqueNames ∧
    (StartNetwork acceptAll spawnOrder happyConfig happyServices []).err = none ∧
    ∃ r, (StartNetwork acceptAll spawnOrder happyConfig happyServices []).jobs = some r ∧
      r.NodesSetsJobIDs.len = happyServices.NodeSets.ToSlice.length ∧
      r.NodesSetsJobIDs.ToSlice.Perm (happyServices.NodeSets.ToSlice.map NodeSet.Name) ∧
      (∀ id, id ∈ r.NodesSetsJobIDs.ToSlice ↔
        ∃ ns ∈ happyServices.NodeSets.ToSlice, ns.Name = id) ∧
      (nodeSetJobs happyConfig.VegaBinary happyServices.NodeSets.ToSlice).map Job.id =
        happyServices.NodeSets.ToSlice.map NodeSet.Name ∧
      (∀ (p : List Nat) (l : List Event) (jobs : List Job),
        (RunNodeSets acceptAll p happyConfig.VegaBinary happyServices.NodeSets.ToSlice l).2 =
            .ok jobs →
          jobs.map Job.id = happyServices.NodeSets.ToSlice.map NodeSet.Name) :=
  ⟨by decide, by decide, by decide,
    StartNetwork_nodeSet_ids acceptAll spawnOrder happyConfig happyServices [] (by decide)
      (by decide)⟩

/-- C5. Whenever `StartNetwork` returns an error, the record it returns is `nil`. -/
theorem StartNetwork_error_nil (c : Client) (picks : Picks) (conf : Config)
    (svcs : GeneratedServices) (log : List Event)
    (herr : (StartNetwork c picks conf svcs log).err ≠ none) :
    (StartNetwork c picks conf svcs log).jobs = none := by
  unfold StartNetwork at herr ⊢
  rcases hp1 : preStartGroup c picks conf log with ⟨s1, e1⟩
  rw [hp1] at herr
  cases e1 with
  | some err => rfl
  | none =>
    simp only at herr ⊢
    rcases hp2 : servicesGroup c picks conf svcs s1 with ⟨s2, e2⟩
    rw [hp2] at herr
    cases e2 with
    | some err => rfl
    | none => simp at herr

/-- With the scheduler rejecting `n1`: the pre-start job `pg` is running and recorded in
`ExtraJobIDs`, node set `n0` is running, `StartNetwork` returns an error and no record. -/
theorem StartNetwork_error_nil_witness :
    (StartNetwork rejectN1 spawnOrder happyConfig happyServices []).err ≠ none ∧
    (preStartGroup rejectN1 spawnOrder happyConfig []).1.result.ExtraJobIDs.ToSlice = ["pg"] ∧
    Event.run (dockerJob pgDocker) none ∈
      (StartNetwork rejectN1 spawnOrder happyConfig happyServices []).log ∧
    Event.run (nodeSetJob "vega" (sampleNodeSet "n0" (some sampleDataNode))) none ∈
      (StartNetwork rejectN1 spawnOrder happyConfig happyServices []).log ∧
    (StartNetwork rejectN1 spawnOrder happyConfig happyServices []).jobs = none :=
  ⟨by decide, by decide, by decide, by decide,
    StartNetwork_error_nil rejectN1 spawnOrder happyConfig happyServices [] (by decide)⟩

/-! ### The pre-start gate of `StartNetwork` -/

theorem preStartStep_log (c : Client) (dc : DockerConfig) (s : RunState) :
    (preStartStep c dc s).1.log =
      s.log ++ [Event.run (dockerJob dc) (c.RunAndWait s.log (dockerJob dc))] := by
  simp only [preStartStep, runDockerJob, Client.submit]
  cases c.RunAndWait s.log (dockerJob dc) <;> rfl

theorem preStartStep_err (c : Client) (dc : DockerConfig) (s : RunState) :
    (preStartStep c dc s).2 =
      (c.RunAndWait s.log (dockerJob dc)).map (fun cause =>
        "failed to run pre start job " ++ dc.Name ++ ": " ++
          ("failed to run nomad docker job: " ++ cause)) := by
  simp only [preStartStep, runDockerJob, Client.submit]
  cases c.RunAndWait s.log (dockerJob dc) <;> rfl

theorem runAll_preStart (c : Client) :
    ∀ (dcs : List DockerConfig) (s : RunState),
      ∃ evs, (runAll (dcs.map (preStartStep c)) s).1.log = s.log ++ evs ∧
        evs.map Event.job = dcs.map (fun dc => some (dockerJob dc)) ∧
        ((runAll (dcs.map (preStartStep c)) s).2 = none →
          ∀ ev ∈ evs, ∃ job, ev = Event.run job none) ∧
        (∀ msg, (runAll (dcs.map (preStartStep c)) s).2 = some msg →
          ∃ dc cause before after, dc ∈ dcs ∧
            evs = before ++ Event.run (dockerJob dc) (some cause) :: after ∧
            (∀ ev ∈ before, ∃ job, ev = Event.run job none) ∧
            msg = "failed to run pre start job " ++ dc.Name ++ ": " ++
              ("failed to run nomad docker job: " ++ cause))
  | [], s => ⟨[], by simp [runAll]⟩
  | dc :: dcs, s => by
    obtain ⟨evs, h1, h2, h3, h4⟩ := runAll_preStart c dcs (preStartStep c dc s).1
    refine ⟨Event.run (dockerJob dc) (c.RunAndWait s.log (dockerJob dc)) :: evs, ?_, ?_, ?_, ?_⟩
    · rw [List.map_cons, runAll_cons_fst, h1, preStartStep_log]
      simp
    · simp [Event.job, h2]
    · intro hnone
      rw [List.map_cons, runAll_cons_snd, preStartStep_err] at hnone
      cases hr : c.RunAndWait s.log (dockerJob dc) with
      | some cause => simp [hr] at hnone
      | none =>
        simp only [hr, Option.map_none'] at hnone
        intro ev hev
        rcases List.mem_cons.1 hev with rfl | hev
        · exact ⟨_, rfl⟩
        · exact h3 hnone ev hev
    · intro msg hmsg
      rw [List.map_cons, runAll_cons_snd, preStartStep_err] at hmsg
      cases hr : c.RunAndWait s.log (dockerJob dc) with
      | some cause =>
        simp only [hr, Option.map_some', Option.some.injEq] at hmsg
        exact ⟨dc, cause, [], evs, List.mem_cons_self _ _, rfl, by simp, hmsg.symm⟩
      | none =>
        simp only [hr, Option.map_none'] at hmsg
        obtain ⟨dc2, cause, before, after, hdc, hevs, hbefore, hm⟩ := h4 msg hmsg
        refine ⟨dc2, cause, Event.run (dockerJob dc) none :: before, after,
          List.mem_cons_of_mem _ hdc, by simp [hevs], ?_, hm⟩
        intro ev hev
        rcases List.mem_cons.1 hev with rfl | hev
        · exact ⟨_, rfl⟩
        · exact hbefore ev hev

theorem mentions_append_right (a b name : String) (h : mentions b name) :
    mentions (a ++ b) name := by
  unfold mentions at h ⊢
  rw [String.data_append]
  exact h.trans (List.suffix_append _ _).isInfix

theorem mentions_append_left (a b name : String) (h : mentions a name) :
    mentions (a ++ b) name := by
  unfold mentions at h ⊢
  rw [String.data_append]
  exact h.trans (List.prefix_append _ _).isInfix

theorem mentions_self (name : String) : mentions name name := List.infix_refl _

theorem preStart_message_mentions (name cause : String) :
    mentions ("failed to wait for pre-start jobs: " ++ ("failed to run pre start job " ++ name ++
      ": " ++ ("failed to run nomad docker job: " ++ cause))) name :=
  mentions_append_right _ _ _ (mentions_append_left _ _ _ (mentions_append_left _ _ _
    (mentions_append_right _ _ _ (mentions_self name))))

/-- The log of the first group: one submission per pre-start container. -/
theorem preStartGroup_log (c : Client) (picks : Picks) (conf : Config) (log : List Event) :
    ∃ pre, (preStartGroup c picks conf log).1.log = log ++ pre ∧
      (pre.map Event.job).Perm (conf.PreStartDocker.map (fun dc => some (dockerJob dc))) ∧
      ((preStartGroup c picks conf log).2 = none → ∀ ev ∈ pre, ∃ job, ev = Event.run job none) ∧
      (∀ msg, (preStartGroup c picks conf log).2 = some msg →
        ∃ dc cause before after, dc ∈ conf.PreStartDocker ∧
          pre = before ++ Event.run (dockerJob dc) (some cause) :: after ∧
          (∀ ev ∈ before, ∃ job, ev = Event.run job none) ∧
          msg = "failed to run pre start job " ++ dc.Name ++ ": " ++
            ("failed to run nomad docker job: " ++ cause)) := by
  simp only [preStartGroup, errgroupWait, schedule_map]
  obtain ⟨evs, h1, h2, h3, h4⟩ := runAll_preStart c (schedule picks.preStart conf.PreStartDocker)
    { log := log, nodeSetsErr := none
      result := { NodesSetsJobIDs := JobIDMap.empty, ExtraJobIDs := JobIDMap.empty,
                  FaucetJobID := "", WalletJobID := "" } }
  refine ⟨evs, h1, ?_, h3, ?_⟩
  · rw [h2]
    exact (schedule_perm _ _).map _
  · intro msg hmsg
    obtain ⟨dc, cause, before, after, hdc, rest⟩ := h4 msg hmsg
    exact ⟨dc, cause, before, after, (schedule_perm _ _).mem_iff.1 hdc, rest⟩

/-- A log that extends `base` by submissions of jobs of the list `jobs` only. -/
theorem submit_extends (c : Client) (jobs : List Job) (base : List Event) (job : Job)
    (hjob : job ∈ jobs) (log : List Event)
    (h : ∃ evs, log = base ++ evs ∧ ∀ ev ∈ evs, ∃ j err, ev = Event.run j err ∧ j ∈ jobs) :
    ∃ evs, (c.submit job log).1 = base ++ evs ∧
      ∀ ev ∈ evs, ∃ j err, ev = Event.run j err ∧ j ∈ jobs := by
  obtain ⟨evs, rfl, hevs⟩ := h
  refine ⟨evs ++ [Event.run job (c.RunAndWait (base ++ evs) job)], by simp [Client.submit], ?_⟩
  intro ev hev
  rcases List.mem_append.1 hev with hev | hev
  · exact hevs ev hev
  · rw [List.mem_singleton] at hev
    exact ⟨job, _, hev, hjob⟩

/-- The job a call of the second group submits. -/
theorem serviceStep_log (c : Client) (conf : Config) (svcs : GeneratedServices)
    (call : ServiceCall) (hcall : call ∈ serviceCalls conf svcs) (s : RunState) :
    ∃ job ∈ serviceJobs conf svcs, (serviceStep c conf call s).1.log = (c.submit job s.log).1 := by
  simp only [serviceCalls, List.mem_append, List.mem_map] at hcall
  rcases hcall with (hcall | hcall) | ⟨job, hjob, rfl⟩
  · cases hf : svcs.Faucet with
    | none => simp [hf] at hcall
    | some fc =>
      simp only [hf, List.mem_singleton] at hcall
      subst hcall
      refine ⟨faucetJob conf.VegaBinary conf.Faucet fc, by simp [serviceJobs, hf], ?_⟩
      simp only [serviceStep, faucetStep, runFaucet, Client.submit]
      cases c.RunAndWait s.log (faucetJob conf.VegaBinary conf.Faucet fc) <;> rfl
  · cases hw : svcs.Wallet with
    | none => simp [hw] at hcall
    | some wallet =>
      simp only [hw, List.mem_singleton] at hcall
      subst hcall
      refine ⟨walletJob conf.Wallet wallet, by simp [serviceJobs, hw], ?_⟩
      simp only [serviceStep, walletStep, runWallet, Client.submit]
      cases c.RunAndWait s.log (walletJob conf.Wallet wallet) <;> rfl
  · exact ⟨job, by simp [serviceJobs, hjob], rfl⟩

theorem nodeSetsReturnStep_log (jobs : List Job) (s : RunState) :
    (nodeSetsReturnStep jobs s).1.log = s.log := by
  simp only [nodeSetsReturnStep, nodeSetsReturn]
  cases s.nodeSetsErr <;> rfl

/-- The log of the second group: submissions of the faucet, wallet and node-set jobs only. -/
theorem servicesGroup_log (c : Client) (picks : Picks) (conf : Config) (svcs : GeneratedServices)
    (s : RunState) :
    ∃ dep, (servicesGroup c picks conf svcs s).1.log = s.log ++ dep ∧
      ∀ ev ∈ dep, ∃ job err, ev = Event.run job err ∧ job ∈ serviceJobs conf svcs := by
  unfold servicesGroup
  refine runAll_inv
    (fun s2 : RunState => ∃ dep, s2.log = s.log ++ dep ∧
      ∀ ev ∈ dep, ∃ job err, ev = Event.run job err ∧ job ∈ serviceJobs conf svcs)
    _ _ ?_ ⟨[], by simp⟩
  intro t ht s2 hs2
  rcases mem_serviceSteps c picks conf svcs t ht with ⟨call, hcall, rfl⟩ | rfl
  · obtain ⟨job, hjob, hlog⟩ := serviceStep_log c conf svcs call hcall s2
    rw [hlog]
    exact submit_extends c _ _ _ hjob _ hs2
  · rw [nodeSetsReturnStep_log]
    exact hs2

theorem dockerJob_not_service (dc : DockerConfig) (conf : Config) (svcs : GeneratedServices) :
    dockerJob dc ∉ serviceJobs conf svcs := by
  intro h
  simp only [serviceJobs, List.mem_append] at h
  rcases h with (h | h) | h
  · cases hf : svcs.Faucet with
    | none => simp [hf] at h
    | some fc =>
      simp only [hf, List.mem_singleton] at h
      have := congrArg (fun j : Job => j.TaskGroups.map (fun g => g.Networks.length)) h
      simp [dockerJob, faucetJob] at this
  · cases hw : svcs.Wallet with
    | none => simp [hw] at h
    | some wallet =>
      simp only [hw, List.mem_singleton] at h
      have := congrArg (fun j : Job => j.TaskGroups.map (fun g => g.Networks.length)) h
      simp [dockerJob, walletJob] at this
  · obtain ⟨ns, _, hns⟩ := List.mem_map.1 h
    have := congrArg (fun j : Job => j.TaskGroups.map (fun g => g.Networks.length)) hns
    simp [dockerJob, nodeSetJob] at this

/-- C4, as stated, fails: when `RunAndWait` fails for the two pre-start containers `pg` and
`redis`, the error `StartNetwork` returns names `pg`, the first to fail, and does not contain
the name `redis`. -/
theorem StartNetwork_two_failures :
    (∀ dc ∈ twoDockerConfig.PreStartDocker, Event.run (dockerJob dc) (some "boom") ∈
      (StartNetwork rejectAll spawnOrder twoDockerConfig happyServices []).log) ∧
    (StartNetwork rejectAll spawnOrder twoDockerConfig happyServices []).err = some
      "failed to wait for pre-start jobs: failed to run pre start job pg: failed to run nomad docker job: boom" ∧
    redisDocker ∈ twoDockerConfig.PreStartDocker ∧
    ¬ mentions
      "failed to wait for pre-start jobs: failed to run pre start job pg: failed to run nomad docker job: boom"
      redisDocker.Name := by
  refine ⟨by decide, by decide, by decide, by decide⟩

/-- C4, amended. The scheduler log of a `StartNetwork` call is the old log, then `pre`, one
`RunAndWait` per configured pre-start container and no faucet, wallet or node-set job, then
`dep`, submissions of faucet, wallet and node-set jobs only. If a `RunAndWait` of `pre` failed,
`dep` is empty, no record is returned, and the error message wraps, and so contains, the name
of the pre-start container whose failure is the first in `pre`. Conversely `dep` is non-empty
only when every `RunAndWait` of `pre` returned success. -/
theorem StartNetwork_preStart_gate (c : Client) (picks : Picks) (conf : Config)
    (svcs : GeneratedServices) (log : List Event) :
    ∃ pre dep : List Event,
      (StartNetwork c picks conf svcs log).log = log ++ pre ++ dep ∧
      (pre.map Event.job).Perm (conf.PreStartDocker.map (fun dc => some (dockerJob dc))) ∧
      (∀ ev ∈ pre, ∀ job, ev.job = some job → job ∉ serviceJobs conf svcs) ∧
      (∀ ev ∈ dep, ∃ job err, ev = Event.run job err ∧ job ∈ serviceJobs conf svcs) ∧
      ((∃ job cause, Event.run job (some cause) ∈ pre) →
        dep = [] ∧ (StartNetwork c picks conf svcs log).jobs = none ∧
        ∃ dc cause before after msg, dc ∈ conf.PreStartDocker ∧
          pre = before ++ Event.run (dockerJob dc) (some cause) :: after ∧
          (∀ ev ∈ before, ∃ job, ev = Event.run job none) ∧
          (StartNetwork c picks conf svcs log).err = some msg ∧
          msg = "failed to wait for pre-start jobs: " ++ ("failed to run pre start job " ++
            dc.Name ++ ": " ++ ("failed to run nomad docker job: " ++ cause)) ∧
          mentions msg dc.Name) ∧
      (dep ≠ [] → ∀ ev ∈ pre, ∃ job, ev = Event.run job none) := by
  obtain ⟨pre, hlog, hperm, hnone, hsome⟩ := preStartGroup_log c picks conf log
  have hpre : ∀ ev ∈ pre, ∀ job, ev.job = some job → job ∉ serviceJobs conf svcs := by
    intro ev hev job hjob
    have hmem : some job ∈ pre.map Event.job := List.mem_map.2 ⟨ev, hev, hjob⟩
    obtain ⟨dc, _, hdc⟩ := List.mem_map.1 (hperm.mem_iff.1 hmem)
    cases hdc
    exact dockerJob_not_service dc conf svcs
  unfold StartNetwork
  rcases hp1 : preStartGroup c picks conf log with ⟨s1, e1⟩
  rw [hp1] at hlog hnone hsome
  simp only at hlog hnone hsome
  cases e1 with
  | some err =>
    obtain ⟨dc, cause, before, after, hdc, hsplit, hbefore, hmsg⟩ := hsome err rfl
    refine ⟨pre, [], by simp [hlog], hperm, hpre, by simp, ?_, by simp⟩
    intro _
    refine ⟨rfl, rfl, dc, cause, before, after, _, hdc, hsplit, hbefore, rfl, by rw [hmsg], ?_⟩
    rw [hmsg]
    exact preStart_message_mentions dc.Name cause
  | none =>
    obtain ⟨dep, hdep, hjobs⟩ := servicesGroup_log c picks conf svcs s1
    have hall := hnone rfl
    have hlog2 : ∀ r : StartResult, r.log = (servicesGroup c picks conf svcs s1).1.log →
        r.log = log ++ pre ++ dep := by
      intro r hr
      rw [hr, hdep, hlog]
    have hno : ¬ ∃ job cause, Event.run job (some cause) ∈ pre := by
      rintro ⟨job, cause, hmem⟩
      obtain ⟨job2, hj⟩ := hall _ hmem
      cases hj
    simp only
    rcases hp2 : servicesGroup c picks conf svcs s1 with ⟨s2, e2⟩
    rw [hp2] at hlog2
    cases e2 with
    | some err =>
      exact ⟨pre, dep, hlog2 _ rfl, hperm, hpre, hjobs, fun h => absurd h hno, fun _ => hall⟩
    | none =>
      exact ⟨pre, dep, hlog2 _ rfl, hperm, hpre, hjobs, fun h => absurd h hno, fun _ => hall⟩

/-! ### `RunNodeSets` on its own and inside `StartNetwork` -/

theorem runAll_submit (c : Client) :
    ∀ (jobs : List Job) (log : List Event),
      ∃ evs, (runAll (jobs.map c.submit) log).1 = log ++ evs ∧
        evs.map Event.job = jobs.map some ∧
        ((runAll (jobs.map c.submit) log).2 = none ↔ ∀ ev ∈ evs, ∃ job, ev = Event.run job none)
  | [], log => ⟨[], by simp [runAll]⟩
  | job :: jobs, log => by
    obtain ⟨evs, h1, h2, h3⟩ := runAll_submit c jobs (c.submit job log).1
    refine ⟨Event.run job (c.RunAndWait log job) :: evs, ?_, ?_, ?_⟩
    · rw [List.map_cons, runAll_cons_fst, h1]
      simp [Client.submit]
    · simp [Event.job, h2]
    · rw [List.map_cons, runAll_cons_snd]
      cases hr : c.RunAndWait log job with
      | some err =>
        have hsnd : (c.submit job log).2 = some err := by simp [Client.submit, hr]
        simp only [hsnd]
        constructor
        · intro h
          cases h
        · intro h
          obtain ⟨j, hj⟩ := h _ (List.mem_cons_self _ _)
          cases hj
      | none =>
        have hsnd : (c.submit job log).2 = none := by simp [Client.submit, hr]
        simp only [hsnd, h3]
        constructor
        · intro h ev hev
          rcases List.mem_cons.1 hev with rfl | hev
          · exact ⟨_, rfl⟩
          · exact h ev hev
        · intro h ev hev
          exact h ev (List.mem_cons_of_mem _ hev)

/-- What `RunNodeSets` submits and returns: the descriptors built for the node sets are each
submitted once; they are returned when every `RunAndWait` succeeded, and nothing else is ever
returned. -/
theorem RunNodeSets_spec (c : Client) (picks : List Nat) (vegaBinary : String)
    (nodeSets : List NodeSet) (log : List Event) :
    ∃ evs, (RunNodeSets c picks vegaBinary nodeSets log).1 = log ++ evs ∧
      (evs.map Event.job).Perm ((nodeSetJobs vegaBinary nodeSets).map some) ∧
      ((∀ ev ∈ evs, ∃ job, ev = Event.run job none) →
        (RunNodeSets c picks vegaBinary nodeSets log).2 = .ok (nodeSetJobs vegaBinary nodeSets)) ∧
      (∀ jobs, (RunNodeSets c picks vegaBinary nodeSets log).2 = .ok jobs →
        jobs = nodeSetJobs vegaBinary nodeSets) := by
  obtain ⟨evs, h1, h2, h3⟩ :=
    runAll_submit c (schedule picks (nodeSetJobs vegaBinary nodeSets)) log
  simp only [RunNodeSets, errgroupWait, schedule_map]
  refine ⟨evs, h1, ?_, ?_, ?_⟩
  · rw [h2]
    exact (schedule_perm _ _).map _
  · intro hall
    rw [h3.2 hall]
    rfl
  · intro jobs hjobs
    simp only [nodeSetsReturn] at hjobs
    split at hjobs
    · cases hjobs
    · cases hjobs
      rfl

theorem runAll_nodeSetCalls (c : Client) :
    ∀ (jobs : List Job) (s : RunState),
      runAll (jobs.map (nodeSetCallStep c)) s =
        ({ s with
            log := (runAll (jobs.map c.submit) s.log).1
            nodeSetsErr := match s.nodeSetsErr with
              | some first => some first
              | none => (runAll (jobs.map c.submit) s.log).2 }, none)
  | [], s => by
    cases s with
    | mk log result err => cases err <;> rfl
  | job :: jobs, s => by
    have hstep : (nodeSetCallStep c job s).2 = none := rfl
    rw [List.map_cons, runAll, hstep]
    simp only
    rw [runAll_nodeSetCalls c jobs, List.map_cons, runAll_cons_fst, runAll_cons_snd]
    cases s with
    | mk log result err =>
      cases err with
      | some first => rfl
      | none =>
        simp only [nodeSetCallStep, Client.submit]

theorem afterLastNodeSet_all (order : List ServiceCall)
    (h : ∀ call ∈ order, call.isNodeSet = true) : afterLastNodeSet order = order.length := by
  unfold afterLastNodeSet
  cases hrev : order.reverse with
  | nil => simp
  | cons call rest =>
    have hmem : call ∈ order := by
      rw [← List.mem_reverse, hrev]
      exact List.mem_cons_self _ _
    simp [List.takeWhile, h call hmem]

/-- With no faucet and no wallet, the second group of `StartNetwork` does what lines 316-327
say of a call of `RunNodeSets`: its log is the log `RunNodeSets` leaves, its error wraps the
error `RunNodeSets` returns, and the jobs `RunNodeSets` returns are recorded. -/
theorem servicesGroup_alone (c : Client) (picks : Picks) (conf : Config)
    (svcs : GeneratedServices) (s : RunState)
    (hf : svcs.Faucet = none) (hw : svcs.Wallet = none) (hs : s.nodeSetsErr = none) :
    (servicesGroup c picks conf svcs s).1.log =
      (RunNodeSets c picks.services conf.VegaBinary svcs.NodeSets.ToSlice s.log).1 ∧
    (servicesGroup c picks conf svcs s).2 =
      (match (RunNodeSets c picks.services conf.VegaBinary svcs.NodeSets.ToSlice s.log).2 with
        | .error err => some ("failed to run node sets: " ++ err)
        | .ok _ => none) ∧
    (servicesGroup c picks conf svcs s).1.result =
      (match (RunNodeSets c picks.services conf.VegaBinary svcs.NodeSets.ToSlice s.log).2 with
        | .error _ => s.result
        | .ok jobs => { s.result with
            NodesSetsJobIDs :=
              jobs.foldl (fun m job => m.set job.id) s.result.NodesSetsJobIDs }) := by
  have hcalls : serviceCalls conf svcs =
      (nodeSetJobs conf.VegaBinary svcs.NodeSets.ToSlice).map ServiceCall.nodeSet := by
    simp [serviceCalls, hf, hw]
  have hall : ∀ call ∈ schedule picks.services (serviceCalls conf svcs),
      call.isNodeSet = true := by
    intro call hcall
    rw [(schedule_perm _ _).mem_iff, hcalls] at hcall
    obtain ⟨job, _, rfl⟩ := List.mem_map.1 hcall
    rfl
  have hsteps : serviceSteps c picks conf svcs =
      (schedule picks.services (nodeSetJobs conf.VegaBinary svcs.NodeSets.ToSlice)).map
        (nodeSetCallStep c) ++
      [nodeSetsReturnStep (nodeSetJobs conf.VegaBinary svcs.NodeSets.ToSlice)] := by
    simp only [serviceSteps]
    rw [afterLastNodeSet_all _ hall, List.take_of_length_le (Nat.le_add_right _ _),
      List.drop_of_length_le (Nat.le_add_right _ _), hcalls, schedule_map]
    simp [Function.comp_def, serviceStep]
  have hrun : runAll (serviceSteps c picks conf svcs) s =
      nodeSetsReturnStep (nodeSetJobs conf.VegaBinary svcs.NodeSets.ToSlice)
        (runAll ((schedule picks.services
          (nodeSetJobs conf.VegaBinary svcs.NodeSets.ToSlice)).map (nodeSetCallStep c)) s).1 := by
    apply Prod.ext
    · rw [hsteps, runAll_append_fst]
      simp only [runAll]
      split <;> rfl
    · rw [hsteps, runAll_append_snd, runAll_nodeSetCalls]
      simp only [runAll]
      cases (nodeSetsReturnStep (nodeSetJobs conf.VegaBinary svcs.NodeSets.ToSlice) _).2 <;> rfl
  unfold servicesGroup
  rw [hrun, runAll_nodeSetCalls]
  simp only [RunNodeSets, errgroupWait, schedule_map, hs, nodeSetsReturnStep, nodeSetsReturn]
  cases (runAll ((schedule picks.services
      (nodeSetJobs conf.VegaBinary svcs.NodeSets.ToSlice)).map c.submit) s.log).2 with
  | some err => exact ⟨rfl, rfl, rfl⟩
  | none => exact ⟨rfl, rfl, rfl⟩

/-! ### Descriptors -/

theorem oneGroupNoRestart_dockerJob (conf : DockerConfig) : oneGroupNoRestart (dockerJob conf) := by
  simp [oneGroupNoRestart, dockerJob]

theorem oneGroupNoRestart_nodeSetJob (vegaBinary : String) (ns : NodeSet) :
    oneGroupNoRestart (nodeSetJob vegaBinary ns) := by
  simp [oneGroupNoRestart, nodeSetJob]

theorem oneGroupNoRestart_walletJob (conf : WalletConfig) (wallet : Wallet) :
    oneGroupNoRestart (walletJob conf wallet) := by
  simp [oneGroupNoRestart, walletJob]

theorem oneGroupNoRestart_faucetJob (binary : String) (conf : FaucetConfig) (fc : Faucet) :
    oneGroupNoRestart (faucetJob binary conf fc) := by
  simp [oneGroupNoRestart, faucetJob]

theorem oneGroupNoRestart_serviceJobs (conf : Config) (svcs : GeneratedServices) (job : Job)
    (hjob : job ∈ serviceJobs conf svcs) : oneGroupNoRestart job := by
  simp only [serviceJobs, List.mem_append] at hjob
  rcases hjob with (h | h) | h
  · cases hf : svcs.Faucet with
    | none => simp [hf] at h
    | some fc =>
      simp only [hf, List.mem_singleton] at h
      subst h
      exact oneGroupNoRestart_faucetJob _ _ _
  · cases hw : svcs.Wallet with
    | none => simp [hw] at h
    | some wallet =>
      simp only [hw, List.mem_singleton] at h
      subst h
      exact oneGroupNoRestart_walletJob _ _
  · obtain ⟨ns, _, rfl⟩ := List.mem_map.1 h
    exact oneGroupNoRestart_nodeSetJob _ _

theorem Event.eq_run_of_job (ev : Event) (job : Job) (h : ev.job = some job) :
    ∃ err, ev = Event.run job err := by
  cases ev with
  | run j err =>
    simp only [Event.job, Option.some.injEq] at h
    subst h
    exact ⟨err, rfl⟩
  | stop id purge err => simp [Event.job] at h

/-- The scheduler log of a `StartNetwork` call: the old log, one submission per pre-start
container, then submissions of faucet, wallet and node-set jobs only. -/
theorem StartNetwork_log (c : Client) (picks : Picks) (conf : Config) (svcs : GeneratedServices)
    (log : List Event) :
    ∃ pre dep : List Event,
      (StartNetwork c picks conf svcs log).log = log ++ pre ++ dep ∧
      (pre.map Event.job).Perm (conf.PreStartDocker.map (fun dc => some (dockerJob dc))) ∧
      (∀ ev ∈ dep, ∃ job err, ev = Event.run job err ∧ job ∈ serviceJobs conf svcs) := by
  obtain ⟨pre, hlog, hperm, _, _⟩ := preStartGroup_log c picks conf log
  unfold StartNetwork
  rcases hp1 : preStartGroup c picks conf log with ⟨s1, e1⟩
  rw [hp1] at hlog
  simp only at hlog
  cases e1 with
  | some err => exact ⟨pre, [], by simp [hlog], hperm, by simp⟩
  | none =>
    obtain ⟨dep, hdep, hjobs⟩ := servicesGroup_log c picks conf svcs s1
    simp only
    rcases hp2 : servicesGroup c picks conf svcs s1 with ⟨s2, e2⟩
    rw [hp2] at hdep
    simp only at hdep
    cases e2 with
    | some err => exact ⟨pre, dep, by simp [hdep, hlog], hperm, hjobs⟩
    | none => exact ⟨pre, dep, by simp [hdep, hlog], hperm, hjobs⟩

/-- C6. Every descriptor the runner builds has exactly one task group, whose restart policy is
zero attempts with mode `fail`: the descriptor `runDockerJob` submits and returns for any Docker
configuration, the descriptors `RunNodeSets` submits and returns, one for every node set of its
input, the descriptor `runWallet` submits and returns, the descriptor `runFaucet` submits and
returns, and every descriptor a `StartNetwork` call submits. -/
theorem descriptors_oneGroupNoRestart (c : Client) :
    (∀ (conf : DockerConfig) (log : List Event),
      ∃ job err, (runDockerJob c conf log).1 = log ++ [Event.run job err] ∧
        oneGroupNoRestart job ∧ ∀ j, (runDockerJob c conf log).2 = .ok j → j = job) ∧
    (∀ (picks : List Nat) (vegaBinary : String) (nodeSets : List NodeSet) (log : List Event),
      ∃ jobs evs, jobs.length = nodeSets.length ∧ (∀ job ∈ jobs, oneGroupNoRestart job) ∧
        (RunNodeSets c picks vegaBinary nodeSets log).1 = log ++ evs ∧
        (evs.map Event.job).Perm (jobs.map some) ∧
        ∀ js, (RunNodeSets c picks vegaBinary nodeSets log).2 = .ok js → js = jobs) ∧
    (∀ (conf : WalletConfig) (wallet : Wallet) (log : List Event),
      ∃ job err, (runWallet c conf wallet log).1 = log ++ [Event.run job err] ∧
        oneGroupNoRestart job ∧ ∀ j, (runWallet c conf wallet log).2 = .ok j → j = job) ∧
    (∀ (binary : String) (conf : FaucetConfig) (fc : Faucet) (log : List Event),
      ∃ job err, (runFaucet c binary conf fc log).1 = log ++ [Event.run job err] ∧
        oneGroupNoRestart job ∧ ∀ j, (runFaucet c binary conf fc log).2 = .ok j → j = job) ∧
    (∀ (picks : Picks) (conf : Config) (svcs : GeneratedServices) (log : List Event),
      ∃ evs, (StartNetwork c picks conf svcs log).log = log ++ evs ∧
        ∀ ev ∈ evs, ∃ job err, ev = Event.run job err ∧ oneGroupNoRestart job) := by
  refine ⟨?_, ?_, ?_, ?_, ?_⟩
  · intro conf log
    refine ⟨dockerJob conf, c.RunAndWait log (dockerJob conf), ?_,
      oneGroupNoRestart_dockerJob conf, ?_⟩
    · simp only [runDockerJob, Client.submit]
      cases c.RunAndWait log (dockerJob conf) <;> rfl
    · intro j hj
      simp only [runDockerJob, Client.submit] at hj
      cases hr : c.RunAndWait log (dockerJob conf) with
      | some err => simp [hr] at hj
      | none =>
        simp only [hr, Except.ok.injEq] at hj
        exact hj.symm
  · intro picks vegaBinary nodeSets log
    obtain ⟨evs, hlog, hperm, _, hret⟩ := RunNodeSets_spec c picks vegaBinary nodeSets log
    refine ⟨nodeSetJobs vegaBinary nodeSets, evs, by simp [nodeSetJobs], ?_, hlog, hperm, hret⟩
    intro job hjob
    obtain ⟨ns, _, rfl⟩ := List.mem_map.1 hjob
    exact oneGroupNoRestart_nodeSetJob _ _
  · intro conf wallet log
    refine ⟨walletJob conf wallet, c.RunAndWait log (walletJob conf wallet), ?_,
      oneGroupNoRestart_walletJob conf wallet, ?_⟩
    · simp only [runWallet, Client.submit]
      cases c.RunAndWait log (walletJob conf wallet) <;> rfl
    · intro j hj
      simp only [runWallet, Client.submit] at hj
      cases hr : c.RunAndWait log (walletJob conf wallet) with
      | some err => simp [hr] at hj
      | none =>
        simp only [hr, Except.ok.injEq] at hj
        exact hj.symm
  · intro binary conf fc log
    refine ⟨faucetJob binary conf fc, c.RunAndWait log (faucetJob binary conf fc), ?_,
      oneGroupNoRestart_faucetJob binary conf fc, ?_⟩
    · simp only [runFaucet, Client.submit]
      cases c.RunAndWait log (faucetJob binary conf fc) <;> rfl
    · intro j hj
      simp only [runFaucet, Client.submit] at hj
      cases hr : c.RunAndWait log (faucetJob binary conf fc) with
      | some err => simp [hr] at hj
      | none =>
        simp only [hr, Except.ok.injEq] at hj
        exact hj.symm
  · intro picks conf svcs log
    obtain ⟨pre, dep, hlog, hperm, hdep⟩ := StartNetwork_log c picks conf svcs log
    refine ⟨pre ++ dep, by simp [hlog], ?_⟩
    intro ev hev
    rcases List.mem_append.1 hev with hev | hev
    · have hmem : ev.job ∈ pre.map Event.job := List.mem_map.2 ⟨ev, hev, rfl⟩
      obtain ⟨dc, _, hdc⟩ := List.mem_map.1 (hperm.mem_iff.1 hmem)
      obtain ⟨err, rfl⟩ := Event.eq_run_of_job ev (dockerJob dc) hdc.symm
      exact ⟨_, err, rfl, oneGroupNoRestart_dockerJob dc⟩
    · obtain ⟨job, err, rfl, hjob⟩ := hdep ev hev
      exact ⟨job, err, rfl, oneGroupNoRestart_serviceJobs conf svcs job hjob⟩

/-- C7. The descriptors `RunNodeSets` builds, submits (each once) and, when every `RunAndWait`
succeeds, returns, are one per node set of its input, in order; the descriptor of a node set
has one task group whose tasks are, in this order, the Tendermint task with arguments
`tm node --home <Tendermint HomeDir>`, the Vega task with arguments
`node --home <Vega HomeDir> --nodewallet-passphrase-file <NodeWalletPassFilePath>` and, if and
only if the node set has a data node, a third task with arguments `node --home <DataNode HomeDir>`
whose command is the data node's `BinaryPath`: two tasks without a data node, three with one. -/
theorem RunNodeSets_tasks (c : Client) (picks : List Nat) (vegaBinary : String)
    (nodeSets : List NodeSet) (log : List Event) :
    ∃ jobs evs,
      List.Forall₂
        (fun (ns : NodeSet) (job : Job) =>
          ∃ g, job.TaskGroups = [g] ∧
            g.Tasks.map Task.Name =
              [ns.Tendermint.Name, ns.Vega.Name] ++ (ns.DataNode.map DataNode.Name).toList ∧
            g.Tasks.map Task.argv =
              [some ["tm", "node", "--home", ns.Tendermint.HomeDir],
               some ["node", "--home", ns.Vega.HomeDir,
                     "--nodewallet-passphrase-file", ns.Vega.NodeWalletPassFilePath]] ++
              (ns.DataNode.map (fun dn => some ["node", "--home", dn.HomeDir])).toList ∧
            g.Tasks.map Task.command =
              [some vegaBinary, some vegaBinary] ++
              (ns.DataNode.map (fun dn => some dn.BinaryPath)).toList ∧
            (ns.DataNode = none → g.Tasks.length = 2) ∧
            (ns.DataNode ≠ none → g.Tasks.length = 3))
        nodeSets jobs ∧
      (RunNodeSets c picks vegaBinary nodeSets log).1 = log ++ evs ∧
      (evs.map Event.job).Perm (jobs.map some) ∧
      ((∀ ev ∈ evs, ∃ job, ev = Event.run job none) →
        (RunNodeSets c picks vegaBinary nodeSets log).2 = .ok jobs) ∧
      (∀ js, (RunNodeSets c picks vegaBinary nodeSets log).2 = .ok js → js = jobs) := by
  obtain ⟨evs, hlog, hperm, hok, hret⟩ := RunNodeSets_spec c picks vegaBinary nodeSets log
  refine ⟨nodeSetJobs vegaBinary nodeSets, evs, ?_, hlog, hperm, hok, hret⟩
  unfold nodeSetJobs
  rw [List.forall₂_map_right_iff]
  refine List.forall₂_same.2 ?_
  intro ns _
  refine ⟨_, rfl, ?_⟩
  cases hdn : ns.DataNode with
  | none => simp [nodeSetTasks, hdn, Task.argv, Task.command, Task.config]
  | some dn => simp [nodeSetTasks, hdn, Task.argv, Task.command, Task.config]

/-! ### Templating -/

/-- C8. With both selector lists empty, `templateNodeSets` returns the error of
`filterNodesSets` asking for a selector and has no effect: no template parser or generator is
built, no render function is called, no file is written and the network state is not updated,
whatever the template kind, the template text and the network state. -/
theorem templateNodeSets_no_selector {Tmpl Gen : Type} (env : TemplateEnv Tmpl Gen)
    (flags : Flags) (tmplType templateRaw : String) (netState : NetworkState)
    (trace : List Effect)
    (hnames : flags.nodeSetsNames = []) (hgroups : flags.nodeSetsGroupsNames = []) :
    filterNodesSets netState flags.nodeSetsNames flags.nodeSetsGroupsNames =
      ([], some "either of 'nodeset-name', 'nodeset-group-name' flags must be defined to template node set") ∧
    templateNodeSets env flags tmplType templateRaw netState trace =
      (trace, some "either of 'nodeset-name', 'nodeset-group-name' flags must be defined to template node set") := by
  have hf : filterNodesSets netState flags.nodeSetsNames flags.nodeSetsGroupsNames =
      ([], some "either of 'nodeset-name', 'nodeset-group-name' flags must be defined to template node set") := by
    simp [filterNodesSets, hnames, hgroups]
  refine ⟨hf, ?_⟩
  unfold templateNodeSets
  rw [hf]

/-- The scenario with no selector flag: the error is returned and nothing is done. -/
theorem templateNodeSets_no_selector_witness :
    noSelectorFlags.nodeSetsNames = [] ∧ noSelectorFlags.nodeSetsGroupsNames = [] ∧
    filterNodesSets groupState noSelectorFlags.nodeSetsNames noSelectorFlags.nodeSetsGroupsNames =
      ([], some "either of 'nodeset-name', 'nodeset-group-name' flags must be defined to template node set") ∧
    templateNodeSets sampleEnv noSelectorFlags "vega" "tmpl:" groupState [] =
      ([], some "either of 'nodeset-name', 'nodeset-group-name' flags must be defined to template node set") :=
  ⟨rfl, rfl, templateNodeSets_no_selector sampleEnv noSelectorFlags "vega" "tmpl:" groupState []
    rfl rfl⟩

theorem filterNodesSets_eq (netState : NetworkState) (names groups : List String)
    (hok : (filterNodesSets netState names groups).2 = none) :
    (filterNodesSets netState names groups).1 =
      netState.GeneratedServices.NodeSets.ToSlice.filter (fun ns =>
        (decide (names = []) || names.contains ns.Name) &&
        (decide (groups = []) || groups.contains ns.GroupName)) ∧
    (filterNodesSets netState names groups).1 ≠ [] ∧ (names ≠ [] ∨ groups ≠ []) := by
  unfold filterNodesSets at hok ⊢
  split at hok
  · simp at hok
  · rename_i hsel
    have hfilter : FilterNodeSets netState.GeneratedServices.NodeSets.ToSlice
        ((if names.length > 0 then ([] : List NodeSetFilter) ++ [NodeSetFilterByNames names]
            else []) ++
          (if groups.length > 0 then [NodeSetFilterByGroupNames groups] else [])) =
        netState.GeneratedServices.NodeSets.ToSlice.filter (fun ns =>
          (decide (names = []) || names.contains ns.Name) &&
          (decide (groups = []) || groups.contains ns.GroupName)) := by
      unfold FilterNodeSets
      congr 1
      funext ns
      cases names <;> cases groups <;>
        simp [NodeSetFilterByNames, NodeSetFilterByGroupNames]
    have hif : ∀ (l : List NodeSetFilter),
        (if groups.length > 0 then l ++ [NodeSetFilterByGroupNames groups] else l) =
          l ++ (if groups.length > 0 then [NodeSetFilterByGroupNames groups] else []) := by
      intro l
      split <;> simp
    simp only [hif, hfilter] at hok ⊢
    split at hok
    · simp at hok
    · rename_i hne
      rw [if_neg hsel, if_neg hne]
      refine ⟨rfl, ?_, ?_⟩
      · intro h
        simp only at h
        exact hne (by rw [h]; rfl)
      · by_contra hboth
        push_neg at hboth
        exact hsel (by simp [hboth.1, hboth.2])

/-- C9. Whenever `filterNodesSets` returns successfully, the returned list is non-empty, every
returned node set is one of the generated node sets of the state and satisfies
`Name ∈ names ∨ GroupName ∈ groups`; the names filter applies when `names` is non-empty, the
groups filter when `groups` is non-empty, both when both are given: the returned list is the
sequence of the state's node sets that pass the filters applied, in its order. -/
theorem filterNodesSets_ok (netState : NetworkState) (names groups : List String)
    (hok : (filterNodesSets netState names groups).2 = none) :
    (filterNodesSets netState names groups).1 ≠ [] ∧
    (∀ ns ∈ (filterNodesSets netState names groups).1,
      ns ∈ netState.GeneratedServices.NodeSets.ToSlice ∧
      (ns.Name ∈ names ∨ ns.GroupName ∈ groups) ∧
      (names ≠ [] → ns.Name ∈ names) ∧ (groups ≠ [] → ns.GroupName ∈ groups)) ∧
    (filterNodesSets netState names groups).1 =
      netState.GeneratedServices.NodeSets.ToSlice.filter (fun ns =>
        (decide (names = []) || names.contains ns.Name) &&
        (decide (groups = []) || groups.contains ns.GroupName)) := by
  obtain ⟨heq, hne, hsel⟩ := filterNodesSets_eq netState names groups hok
  refine ⟨hne, ?_, heq⟩
  intro ns hns
  rw [heq, List.mem_filter] at hns
  obtain ⟨hmem, hpass⟩ := hns
  simp only [Bool.and_eq_true, Bool.or_eq_true, decide_eq_true_eq, List.contains_eq_any_beq,
    List.any_eq_true, beq_iff_eq] at hpass
  have hpass2 : (names = [] ∨ ns.Name ∈ names) ∧ (groups = [] ∨ ns.GroupName ∈ groups) := by
    refine ⟨hpass.1.imp_right ?_, hpass.2.imp_right ?_⟩
    · rintro ⟨x, hx, rfl⟩
      exact hx
    · rintro ⟨x, hx, rfl⟩
      exact hx
  clear hpass
  have hpass := hpass2
  obtain ⟨hn, hg⟩ := hpass
  refine ⟨hmem, ?_, fun h => hn.resolve_left h, fun h => hg.resolve_left h⟩
  rcases hsel with h | h
  · exact Or.inl (hn.resolve_left h)
  · exact Or.inr (hg.resolve_left h)

/-- Filtering the three node sets of the scenario by the group `validators` returns `v0` and
`v1`. -/
theorem filterNodesSets_ok_witness :
    (filterNodesSets groupState [] ["validators"]).1 =
      [groupNodeSet "v0" "validators", groupNodeSet "v1" "validators"] ∧
    (filterNodesSets groupState [] ["validators"]).1 ≠ [] ∧
    (∀ ns ∈ (filterNodesSets groupState [] ["validators"]).1,
      ns ∈ groupState.GeneratedServices.NodeSets.ToSlice ∧
      (ns.Name ∈ ([] : List String) ∨ ns.GroupName ∈ ["validators"]) ∧
      (([] : List String) ≠ [] → ns.Name ∈ ([] : List String)) ∧
      (["validators"] ≠ [] → ns.GroupName ∈ ["validators"])) ∧
    (filterNodesSets groupState [] ["validators"]).1 =
      groupState.GeneratedServices.NodeSets.ToSlice.filter (fun ns =>
        (decide (([] : List String) = []) || ([] : List String).contains ns.Name) &&
        (decide (["validators"] = []) || ["validators"].contains ns.GroupName)) :=
  ⟨by decide, filterNodesSets_ok groupState [] ["validators"] (by decide)⟩

theorem templateNodeSetConfig_trace {Tmpl Gen : Type} (env : TemplateEnv Tmpl Gen) (flags : Flags)
    (templateF templateAndMergeF : templateFunc Tmpl) (tmplType : String) (template : Tmpl)
    (hupdate : flags.templateUpdateNetwork = false) :
    ∀ (nodeSets : List NodeSet) (trace : List Effect),
      ∃ steps,
        (templateNodeSetConfig env flags templateF templateAndMergeF tmplType template nodeSets
          trace).1 = trace ++ steps ∧
        ((templateNodeSetConfig env flags templateF templateAndMergeF tmplType template nodeSets
            trace).2 = none →
          steps.filter (fun e => !e.isOutput) = nodeSets.map (Effect.render flags.withMerge) ∧
          List.Forall₂
            (fun (ns : NodeSet) (e : Effect) => ∃ buff,
              renderNodeSet flags templateF templateAndMergeF template ns = .ok buff ∧
              e = Effect.write
                (env.pathJoin flags.templateOutDir (tmplType ++ "-" ++ ns.Name ++ ".conf"))
                buff none)
            nodeSets (steps.filter Effect.isOutput)) ∧
        ((templateNodeSetConfig env flags templateF templateAndMergeF tmplType template nodeSets
            trace).2 ≠ none →
          (∃ ns ∈ nodeSets, ∃ err,
            renderNodeSet flags templateF templateAndMergeF template ns = .error err) ∨
          (∃ filePath buff err, Effect.write filePath buff (some err) ∈ steps))
  | [], trace => by
    refine ⟨[], ?_, ?_, ?_⟩ <;> simp [templateNodeSetConfig]
  | ns :: nodeSets, trace => by
    have h1 : (Effect.render flags.withMerge ns).isOutput = false := rfl
    have h2 : ∀ p b e, (Effect.write p b e).isOutput = true := fun _ _ _ => rfl
    cases hbuff : renderNodeSet flags templateF templateAndMergeF template ns with
    | error err =>
      refine ⟨[Effect.render flags.withMerge ns], ?_, ?_, ?_⟩
      · rw [templateNodeSetConfig]
        simp only [hbuff]
      · rw [templateNodeSetConfig]
        simp only [hbuff]
        intro h
        cases h
      · intro _
        exact Or.inl ⟨ns, List.mem_cons_self _ _, err, hbuff⟩
    | ok buff =>
      cases hw : env.outputTemplate (trace ++ [Effect.render flags.withMerge ns]) buff
          (env.pathJoin flags.templateOutDir (tmplType ++ "-" ++ ns.Name ++ ".conf")) with
      | some err =>
        refine ⟨[Effect.render flags.withMerge ns,
          Effect.write (env.pathJoin flags.templateOutDir (tmplType ++ "-" ++ ns.Name ++ ".conf"))
            buff (some err)], ?_, ?_, ?_⟩
        · rw [templateNodeSetConfig]
          simp only [hbuff, hupdate, hw]
          simp
        · rw [templateNodeSetConfig]
          simp only [hbuff, hupdate, hw]
          intro h
          simp at h
        · intro _
          exact Or.inr ⟨env.pathJoin flags.templateOutDir (tmplType ++ "-" ++ ns.Name ++ ".conf"),
            buff, err, by simp⟩
      | none =>
        obtain ⟨steps, hsteps, hnone, hsome⟩ :=
          templateNodeSetConfig_trace env flags templateF templateAndMergeF tmplType template
            hupdate nodeSets
            (trace ++ [Effect.render flags.withMerge ns] ++
              [Effect.write
                (env.pathJoin flags.templateOutDir (tmplType ++ "-" ++ ns.Name ++ ".conf"))
                buff none])
        have hunfold : templateNodeSetConfig env flags templateF templateAndMergeF tmplType
            template (ns :: nodeSets) trace =
            templateNodeSetConfig env flags templateF templateAndMergeF tmplType template
              nodeSets
              (trace ++ [Effect.render flags.withMerge ns] ++
                [Effect.write
                  (env.pathJoin flags.templateOutDir (tmplType ++ "-" ++ ns.Name ++ ".conf"))
                  buff none]) := by
          rw [templateNodeSetConfig]
          simp only [hbuff, hupdate, hw]
          simp
        rw [hunfold]
        refine ⟨Effect.render flags.withMerge ns ::
          Effect.write (env.pathJoin flags.templateOutDir (tmplType ++ "-" ++ ns.Name ++ ".conf"))
            buff none :: steps, ?_, ?_, ?_⟩
        · rw [hsteps]
          simp
        · intro hok
          obtain ⟨hrenders, hwrites⟩ := hnone hok
          refine ⟨?_, ?_⟩
          · simp [List.filter_cons, h1, h2, hrenders]
          · simp only [List.filter_cons, h1, h2, if_true, Bool.false_eq_true, if_false]
            exact List.Forall₂.cons ⟨buff, hbuff, rfl⟩ hwrites
        · intro herr
          rcases hsome herr with ⟨ns2, hns2, err, hfail⟩ | ⟨filePath, b, err, hmem⟩
          · exact Or.inl ⟨ns2, List.mem_cons_of_mem _ hns2, err, hfail⟩
          · exact Or.inr ⟨filePath, b, err,
              List.mem_cons_of_mem _ (List.mem_cons_of_mem _ hmem)⟩

/-- C10. With `update_network` off, `templateNodeSetConfig` returns success when every render
succeeds and every file write of the run succeeds, and a run that returns success has
performed, besides one render call per node set, exactly one file write per node set of the
list, in the order of the list, the write for node set `ns` going to the path joining
`templateOutDir` and `<kind>-<ns.Name>.conf` with the buffer rendered for `ns`, and has
performed no other file write and no update of the network state. -/
theorem templateNodeSetConfig_writes {Tmpl Gen : Type} (env : TemplateEnv Tmpl Gen)
    (flags : Flags) (templateF templateAndMergeF : templateFunc Tmpl) (tmplType : String)
    (template : Tmpl) (nodeSets : List NodeSet) (trace : List Effect)
    (hupdate : flags.templateUpdateNetwork = false) :
    ∃ steps,
      (templateNodeSetConfig env flags templateF templateAndMergeF tmplType template nodeSets
        trace).1 = trace ++ steps ∧
      ((∀ ns ∈ nodeSets, ∃ buff,
          renderNodeSet flags templateF templateAndMergeF template ns = .ok buff) →
        (∀ filePath buff err, Effect.write filePath buff err ∈ steps → err = none) →
        (templateNodeSetConfig env flags templateF templateAndMergeF tmplType template nodeSets
          trace).2 = none) ∧
      ((templateNodeSetConfig env flags templateF templateAndMergeF tmplType template nodeSets
          trace).2 = none →
        steps.filter (fun e => !e.isOutput) = nodeSets.map (Effect.render flags.withMerge) ∧
        List.Forall₂
          (fun (ns : NodeSet) (e : Effect) => ∃ buff,
            renderNodeSet flags templateF templateAndMergeF template ns = .ok buff ∧
            e = Effect.write
              (env.pathJoin flags.templateOutDir (tmplType ++ "-" ++ ns.Name ++ ".conf"))
              buff none)
          nodeSets (steps.filter Effect.isOutput)) := by
  obtain ⟨steps, hsteps, hnone, hsome⟩ :=
    templateNodeSetConfig_trace env flags templateF templateAndMergeF tmplType template hupdate
      nodeSets trace
  refine ⟨steps, hsteps, ?_, hnone⟩
  intro hrender hwrite
  by_contra herr
  rcases hsome herr with ⟨ns, hns, err, hfail⟩ | ⟨filePath, buff, err, hmem⟩
  · obtain ⟨buff, hbuff⟩ := hrender ns hns
    rw [hbuff] at hfail
    cases hfail
  · have := hwrite filePath buff (some err) hmem
    cases this

/-- The scenario templating by group, kind `vega`, group `validators`, with a writer that would
fail on the file of `f0`: the run succeeds and the two files written are `out/vega-v0.conf` and
`out/vega-v1.conf`. -/
theorem templateNodeSetConfig_writes_witness :
    templateNodeSets pickyEnv groupFlags "vega" "tmpl:" groupState [] =
      ([Effect.newTemplate "vega" "tmpl:", Effect.newGenerator "vega",
        Effect.render false (groupNodeSet "v0" "validators"),
        Effect.write "out/vega-v0.conf" "tmpl:v0" none,
        Effect.render false (groupNodeSet "v1" "validators"),
        Effect.write "out/vega-v1.conf" "tmpl:v1" none], none) ∧
    (templateNodeSetConfig pickyEnv groupFlags (sampleGenerator.TemplateConfig ())
      (sampleGenerator.TemplateAndMergeConfig ()) "vega" "tmpl:"
      [groupNodeSet "v0" "validators", groupNodeSet "v1" "validators"] []).2 = none ∧
    groupFlags.templateUpdateNetwork = false ∧
    ∃ steps,
      (templateNodeSetConfig pickyEnv groupFlags (sampleGenerator.TemplateConfig ())
        (sampleGenerator.TemplateAndMergeConfig ()) "vega" "tmpl:"
        [groupNodeSet "v0" "validators", groupNodeSet "v1" "validators"] []).1 = [] ++ steps ∧
      ((∀ ns ∈ [groupNodeSet "v0" "validators", groupNodeSet "v1" "validators"], ∃ buff,
          renderNodeSet groupFlags (sampleGenerator.TemplateConfig ())
            (sampleGenerator.TemplateAndMergeConfig ()) "tmpl:" ns = .ok buff) →
        (∀ filePath buff err, Effect.write filePath buff err ∈ steps → err = none) →
        (templateNodeSetConfig pickyEnv groupFlags (sampleGenerator.TemplateConfig ())
          (sampleGenerator.TemplateAndMergeConfig ()) "vega" "tmpl:"
          [groupNodeSet "v0" "validators", groupNodeSet "v1" "validators"] []).2 = none) ∧
      ((templateNodeSetConfig pickyEnv groupFlags (sampleGenerator.TemplateConfig ())
          (sampleGenerator.TemplateAndMergeConfig ()) "vega" "tmpl:"
          [groupNodeSet "v0" "validators", groupNodeSet "v1" "validators"] []).2 = none →
        steps.filter (fun e => !e.isOutput) =
          [groupNodeSet "v0" "validators", groupNodeSet "v1" "validators"].map
            (Effect.render groupFlags.withMerge) ∧
        List.Forall₂
          (fun (ns : NodeSet) (e : Effect) => ∃ buff,
            renderNodeSet groupFlags (sampleGenerator.TemplateConfig ())
              (sampleGenerator.TemplateAndMergeConfig ()) "tmpl:" ns = .ok buff ∧
            e = Effect.write
              (pickyEnv.pathJoin groupFlags.templateOutDir ("vega" ++ "-" ++ ns.Name ++ ".conf"))
              buff none)
          [groupNodeSet "v0" "validators", groupNodeSet "v1" "validators"]
          (steps.filter Effect.isOutput)) :=
  ⟨by decide, by decide, rfl,
    templateNodeSetConfig_writes pickyEnv groupFlags (sampleGenerator.TemplateConfig ())
      (sampleGenerator.TemplateAndMergeConfig ()) "vega" "tmpl:"
      [groupNodeSet "v0" "validators", groupNodeSet "v1" "validators"] [] rfl⟩

/-! ### The scenarios of the specification, evaluated -/

/-- The happy start scenario, stopped with `nodesOnly = false`: `pg`, `n0` and `n1` are stopped,
and no call is made for the empty wallet and faucet IDs. -/
theorem StopNetwork_happy_all :
    StopNetwork acceptAll [] (some happyJobs) false [] =
      ([Event.stop "pg" true none, Event.stop "n0" true none, Event.stop "n1" true none],
        none) := by
  decide

/-- The happy start scenario, stopped with `nodesOnly = true`: only `n0` and `n1` are stopped. -/
theorem StopNetwork_happy_nodesOnly :
    StopNetwork acceptAll [] (some happyJobs) true [] =
      ([Event.stop "n0" true none, Event.stop "n1" true none], none) := by
  decide

/-- The happy start scenario: the record `StartNetwork` returns. -/
theorem StartNetwork_happy :
    (StartNetwork acceptAll spawnOrder happyConfig happyServices []).jobs = some happyJobs ∧
    (StartNetwork acceptAll spawnOrder happyConfig happyServices []).err = none := by
  decide

/-- The pre-start failure scenario: `pg` is rejected, the error names `pg`, no record is
returned and the only job submitted is `pg`. -/
theorem StartNetwork_pg_rejected :
    StartNetwork rejectAll spawnOrder happyConfig happyServices [] =
      { log := [Event.run (dockerJob pgDocker) (some "boom")]
        jobs := none
        err := some
          "failed to wait for pre-start jobs: failed to run pre start job pg: failed to run nomad docker job: boom" } := by
  decide

/-- The node set `n0` of the happy start scenario, with a data node, gets three tasks; `n1`,
without one, gets two. -/
theorem nodeSetTasks_happy :
    (happyServices.NodeSets.ToSlice.map (fun ns => (nodeSetTasks "vega" ns).length)) = [3, 2] := by
  decide

/-- The calls of the goroutines of `RunNodeSets` interleave with the faucet and wallet calls:
under `mixedOrder` the scheduler receives `pg`, `n0`, the faucet job, `n1`, the wallet job. -/
theorem StartNetwork_interleaved :
    (StartNetwork acceptAll mixedOrder happyConfig fullServices []).log =
      [Event.run (dockerJob pgDocker) none,
       Event.run (nodeSetJob "vega" (sampleNodeSet "n0" (some sampleDataNode))) none,
       Event.run (faucetJob "vega" happyConfig.Faucet sampleFaucet) none,
       Event.run (nodeSetJob "vega" (sampleNodeSet "n1" none)) none,
       Event.run (walletJob happyConfig.Wallet sampleWallet) none] ∧
    (StartNetwork acceptAll mixedOrder happyConfig fullServices []).jobs =
      some { happyJobs with FaucetJobID := "fc", WalletJobID := "wl" } := by
  decide

end Vegacapsule
